import Mathlib

/-!
Verification of the omnispeak per-episode game-logic layer
(`src/ck5_misc.c`, `src/ck6_misc.c`, `src/id_fs.c`, `src/ck_def.h`).

The C code is shallowly embedded: global mutable state becomes explicit
state records threaded through pure functions, machine integers become
`Nat`/`Int` with explicit `% 65536` where 16-bit wraparound matters, and
calls into external collaborators (spawner functions, the chunk cache,
the pixel plotter) are recorded as effect descriptors in the state.
-/

namespace Omnispeak

/-! ## Difficulty (enum `CK_Difficulty` from `ck_def.h`) -/

def D_NotPlaying : Nat := 0
def D_Easy : Nat := 1
def D_Normal : Nat := 2
def D_Hard : Nat := 3

/-! ## Object activity states.

The `ck_def.h` copy in the repository declares `CK_object.active` as a
bare `bool`, but the code uses the four-valued enum described in the
spec (`OBJ_ALWAYS_ACTIVE`, `OBJ_ACTIVE`, `OBJ_INACTIVE`,
`OBJ_EXISTS_ONLY_ONSCREEN`); we model that enum. -/

inductive ObjActive where
  | alwaysActive
  | activeOnscreen
  | inactive
  | existsOnscreen
  deriving DecidableEq, Repr

/-- The fields of `CK_object` (from `ck_def.h`) that the verified code
touches: an identity, a type tag, the activity state and position. -/
structure CKObj where
  id : Nat
  type : Nat
  active : ObjActive
  posX : Int
  posY : Int
  deriving DecidableEq, Repr

/-! ## Spawn effect descriptors.

Every call a scanner makes into an external per-type spawner function is
recorded as one of these descriptors, with the exact arguments the C
code passes. -/

set_option maxHeartbeats 1600000 in
inductive Spawn where
  | keen (x y : Nat) (dir : Int)
  | demoSign
  | mapKeen (x y : Nat)
  | mapKeenTele (x y : Nat)
  | sparky (x y : Nat)
  | mine (x y : Nat)
  | slice (x y : Nat) (dir : Nat)
  | sliceDiag (x y : Nat)
  | robo (x y : Nat)
  | spirogrip (x y : Nat)
  | axisPlatform (x y : Nat) (dir : Nat) (purple : Bool)
  | fallPlat (x y : Nat)
  | standPlatform (x y : Nat)
  | goPlat (x y : Nat) (dir : Nat) (purple : Bool)
  | sneakPlat (x y : Nat)
  | qed (x y : Nat)
  | ampton (x y : Nat)
  | turret (x y : Nat) (dir : Nat)
  | item (x y : Nat) (itemType : Nat)
  | volte (x y : Nat)
  | shelly (x y : Nat)
  | spindred (x y : Nat)
  | master (x y : Nat)
  | shikadi (x y : Nat)
  | shocksund (x y : Nat)
  | sphereful (x y : Nat)
  | korath (x y : Nat)
  | bloog (x y : Nat)
  | blooglet (x y : Nat) (variant : Nat)
  | mapCliff (x y : Nat) (variant : Nat)
  | molly (x y : Nat)
  | fleex (x y : Nat)
  | bobba (x y : Nat)
  | satelliteLoading (x y : Nat) (variant : Nat)
  | nospike (x y : Nat)
  | gik (x y : Nat)
  | orbatrix (x y : Nat)
  | bipship (x y : Nat)
  | flect (x y : Nat)
  | blorb (x y : Nat)
  | ceilick (x y : Nat)
  | bloogguard (x y : Nat)
  | grabbiter (x y : Nat)
  | satellite (x y : Nat)
  | rope (x y : Nat)
  | sandwich (x y : Nat)
  | passcard (x y : Nat)
  | babobba (x y : Nat)
  | rocket (x y : Nat) (variant : Nat)
  deriving DecidableEq, Repr

/-- Teleporter open/close effects emitted by the level-0 post-scan code
(`CK5_OpenMapTeleporter` / `CK5_CloseMapTeleporter`). -/
inductive TeleAction where
  | openTele (x y : Nat)
  | closeTele (x y : Nat)
  deriving DecidableEq, Repr

/-! ## CK5 lump tables (`ck5_misc.c`, `CK_Lumptype`, `ck5_lumpStarts`,
`ck5_lumpEnds`, `ck5_itemLumps`). -/

def CK5_MAXLUMPS : Nat := 34

def Lump5_Keen : Nat := 1
def Lump5_Gems : Nat := 9
def Lump5_Stunner : Nat := 10
def Lump5_PinkShot : Nat := 11
def Lump5_MapKeen : Nat := 12
def Lump5_ShikadiMaster : Nat := 13
def Lump5_Shikadi : Nat := 14
def Lump5_Shocksund : Nat := 15
def Lump5_Sphereful : Nat := 16
def Lump5_Sparky : Nat := 17
def Lump5_Mine : Nat := 18
def Lump5_Slicestar : Nat := 19
def Lump5_RoboRed : Nat := 20
def Lump5_Spirogrip : Nat := 21
def Lump5_Ampton : Nat := 22
def Lump5_VolteFace : Nat := 23
def Lump5_PurplePlat : Nat := 24
def Lump5_Spindred : Nat := 25
def Lump5_Shelley : Nat := 26
def Lump5_RedPlat : Nat := 27
def Lump5_Keycard : Nat := 29
def Lump5_Korath : Nat := 30
def Lump5_QEDFuse : Nat := 31
def Lump5_Teleporter : Nat := 33

def ck5_itemLumps : List Nat :=
  [Lump5_Gems, Lump5_Gems, Lump5_Gems, Lump5_Gems,
   2, 3, 4, 5, 6, 7, 8, Lump5_Stunner]

def ck5_lumpStarts : List Nat :=
  [0, 0x6C, 0xD2, 0xD4, 0xD6, 0xD8, 0xDA, 0xDC, 0xDE, 0xE0,
   0xE9, 0xEC, 0xF2, 0x130, 0x140, 0x151, 0x166, 0x16E, 0x17A, 0x181,
   0x183, 0x189, 0x195, 0x1A1, 0x1A6, 0x1A8, 0x1AC, 0x1BE, 0x1BF, 0xCF,
   0x126, 0x11B, 0x11E, 0x122]

def ck5_lumpEnds : List Nat :=
  [0, 0xCE, 0xD3, 0xD5, 0xD7, 0xD9, 0xDB, 0xDD, 0xDF, 0xE8,
   0xEA, 0xF1, 0x11A, 0x13F, 0x150, 0x165, 0x16D, 0x179, 0x180, 0x182,
   0x188, 0x194, 0x1A0, 0x1A5, 0x1A7, 0x1AB, 0x1BD, 0x1BE, 0x1BF, 0xD1,
   0x12F, 0x11D, 0x121, 0x125]

/-- The inclusive chunk range `[starts[i], ends[i]]` of lump category `i`,
as the list of chunk ids the batch loop `for (j = starts[i]; j <= ends[i]; j++)`
visits.  When `starts[i] > ends[i]` the C loop body never runs and the
list is empty; when they are equal (e.g. `(0,0)`) it has one element. -/
def ck5_chunkRange (i : Nat) : List Nat :=
  List.range' (ck5_lumpStarts.getD i 0)
    (ck5_lumpEnds.getD i 0 + 1 - ck5_lumpStarts.getD i 0)

/-- The chunk-mark requests issued by the batch pass at the end of
`CK5_ScanInfoLayer` (`for i ... if (ck5_lumpsNeeded[i]) for j ... CA_MarkGrChunk(j)`). -/
def ck5_batchMarks (needed : List Bool) : List Nat :=
  (List.range CK5_MAXLUMPS).flatMap
    (fun i => if needed.getD i false then ck5_chunkRange i else [])

/-! ## CK5 scanner state.

`CK_GameState` fields read or written by `CK5_ScanInfoLayer`, the
`ck5_lumpsNeeded` flag array, and the effect logs standing in for calls
to external collaborators. -/

/-- Value of `LS_TeleportToKorath` (the `levelState` enum lives outside
the repository snapshot; the exact numeral is immaterial to every claim,
only its use as a comparison constant matters). -/
def LS_TeleportToKorath : Int := 6

structure CK5ScanState where
  difficulty : Nat
  levelState : Int
  numShots : Int
  currentLevel : Int
  fusesRemaining : Int
  levelsDone : List Bool
  keenPosY : Int
  lumpsNeeded : List Bool
  graphChunkNeeded : List Nat
  spawns : List Spawn
  scrollBlocks : List (Nat × Nat × Bool)
  markRequests : List Nat
  teleActions : List TeleAction
  objs : List CKObj
  deriving DecidableEq, Repr

namespace CK5ScanState

/-- `ck5_lumpsNeeded[i] = true;` -/
def setLump (s : CK5ScanState) (i : Nat) : CK5ScanState :=
  { s with lumpsNeeded := s.lumpsNeeded.set i true }

/-- Record a call to an external spawner function. -/
def addSpawn (s : CK5ScanState) (sp : Spawn) : CK5ScanState :=
  { s with spawns := s.spawns ++ [sp] }

/-- `ca_graphChunkNeeded[c] |= ca_levelbit;` -/
def markChunk (s : CK5ScanState) (c : Nat) : CK5ScanState :=
  { s with graphChunkNeeded := s.graphChunkNeeded ++ [c] }

end CK5ScanState

/-- The `break`-guarded Hard gate of a difficulty cascade
(`case N: if (ck_gameState.difficulty < D_Hard) break;` followed by
fallthrough into `body`). -/
def hardGate (s : CK5ScanState) (body : CK5ScanState) : CK5ScanState :=
  if s.difficulty < D_Hard then s else body

/-- The `break`-guarded Normal gate of a difficulty cascade. -/
def normalGate (s : CK5ScanState) (body : CK5ScanState) : CK5ScanState :=
  if s.difficulty < D_Normal then s else body

/-! Shared cascade bodies of `CK5_ScanInfoLayer` (the statements after
the final `case` label of each cascade, executed by fallthrough). -/

def ck5_sparkyBody (x y : Nat) (s : CK5ScanState) : CK5ScanState :=
  (s.addSpawn (.sparky x y)).setLump Lump5_Sparky

def ck5_mineBody (x y : Nat) (s : CK5ScanState) : CK5ScanState :=
  (s.addSpawn (.mine x y)).setLump Lump5_Mine

def ck5_sliceNorthBody (x y : Nat) (s : CK5ScanState) : CK5ScanState :=
  (s.addSpawn (.slice x y 0)).setLump Lump5_Slicestar

def ck5_roboBody (x y : Nat) (s : CK5ScanState) : CK5ScanState :=
  (s.addSpawn (.robo x y)).setLump Lump5_RoboRed

def ck5_spirogripBody (x y : Nat) (s : CK5ScanState) : CK5ScanState :=
  (s.addSpawn (.spirogrip x y)).setLump Lump5_Spirogrip

def ck5_sliceDiagBody (x y : Nat) (s : CK5ScanState) : CK5ScanState :=
  (s.addSpawn (.sliceDiag x y)).setLump Lump5_Slicestar

def ck5_sliceEastBody (x y : Nat) (s : CK5ScanState) : CK5ScanState :=
  (s.addSpawn (.slice x y 1)).setLump Lump5_Slicestar

def ck5_standPlatBody (x y : Nat) (s : CK5ScanState) : CK5ScanState :=
  (s.addSpawn (.standPlatform x y)).setLump Lump5_RedPlat

def ck5_amptonBody (x y : Nat) (s : CK5ScanState) : CK5ScanState :=
  (s.addSpawn (.ampton x y)).setLump Lump5_Ampton

def ck5_turretBody (x y : Nat) (dir : Nat) (s : CK5ScanState) : CK5ScanState :=
  (s.addSpawn (.turret x y dir)).setLump Lump5_PinkShot

def ck5_itemBody (x y : Nat) (v : Nat) (s : CK5ScanState) : CK5ScanState :=
  (s.addSpawn (.item x y (v - 57))).setLump (ck5_itemLumps.getD (v - 57) 0)

def ck5_volteBody (x y : Nat) (s : CK5ScanState) : CK5ScanState :=
  (s.addSpawn (.volte x y)).setLump Lump5_VolteFace

def ck5_shellyBody (x y : Nat) (s : CK5ScanState) : CK5ScanState :=
  (s.addSpawn (.shelly x y)).setLump Lump5_Shelley

def ck5_spindredBody (x y : Nat) (s : CK5ScanState) : CK5ScanState :=
  (s.addSpawn (.spindred x y)).setLump Lump5_Spindred

def ck5_masterBody (x y : Nat) (s : CK5ScanState) : CK5ScanState :=
  (s.addSpawn (.master x y)).setLump Lump5_ShikadiMaster

def ck5_shikadiBody (x y : Nat) (s : CK5ScanState) : CK5ScanState :=
  (s.addSpawn (.shikadi x y)).setLump Lump5_Shikadi

def ck5_shocksundBody (x y : Nat) (s : CK5ScanState) : CK5ScanState :=
  (s.addSpawn (.shocksund x y)).setLump Lump5_Shocksund

def ck5_spherefulBody (x y : Nat) (s : CK5ScanState) : CK5ScanState :=
  (s.addSpawn (.sphereful x y)).setLump Lump5_Sphereful

/-- One `case` dispatch of the `switch (infoValue)` statement inside the
tile loop of `CK5_ScanInfoLayer` (`src/ck5_misc.c`).  Difficulty
cascades are rendered exactly as the C fallthrough chains: the gated
label either `break`s (returning the state unchanged) or continues into
the next lower label's code. -/
def CK5_handleInfoTile (x y : Nat) (infoValue : Nat) (s : CK5ScanState) :
    CK5ScanState :=
  match infoValue with
  | 1 => (((s.addSpawn (.keen x y 1)).addSpawn .demoSign).markChunk 0xEB).setLump Lump5_Keen
  | 2 => (((s.addSpawn (.keen x y (-1))).addSpawn .demoSign).markChunk 0xEB).setLump Lump5_Keen
  | 3 =>
    let s1 := ((s.addSpawn .demoSign).markChunk 0xEB).setLump Lump5_MapKeen
    if s.levelState ≠ LS_TeleportToKorath then s1.addSpawn (.mapKeen x y) else s1
  | 6 => hardGate s (normalGate s (ck5_sparkyBody x y s))
  | 5 => normalGate s (ck5_sparkyBody x y s)
  | 4 => ck5_sparkyBody x y s
  | 9 => hardGate s (normalGate s (ck5_mineBody x y s))
  | 8 => normalGate s (ck5_mineBody x y s)
  | 7 => ck5_mineBody x y s
  | 12 => hardGate s (normalGate s (ck5_sliceNorthBody x y s))
  | 11 => normalGate s (ck5_sliceNorthBody x y s)
  | 10 => ck5_sliceNorthBody x y s
  | 15 => hardGate s (normalGate s (ck5_roboBody x y s))
  | 14 => normalGate s (ck5_roboBody x y s)
  | 13 => ck5_roboBody x y s
  | 18 => hardGate s (normalGate s (ck5_spirogripBody x y s))
  | 17 => normalGate s (ck5_spirogripBody x y s)
  | 16 => ck5_spirogripBody x y s
  | 21 => hardGate s (normalGate s (ck5_sliceDiagBody x y s))
  | 20 => normalGate s (ck5_sliceDiagBody x y s)
  | 19 => ck5_sliceDiagBody x y s
  | 24 => hardGate s (normalGate s (ck5_sliceEastBody x y s))
  | 23 => normalGate s (ck5_sliceEastBody x y s)
  | 22 => ck5_sliceEastBody x y s
  | 25 => { s with scrollBlocks := s.scrollBlocks ++ [(x, y, true)] }
  | 26 =>
    if s.levelState = LS_TeleportToKorath then s.addSpawn (.mapKeenTele x y) else s
  | 27 => (s.addSpawn (.axisPlatform x y 0 false)).setLump Lump5_RedPlat
  | 28 => (s.addSpawn (.axisPlatform x y 1 false)).setLump Lump5_RedPlat
  | 29 => (s.addSpawn (.axisPlatform x y 2 false)).setLump Lump5_RedPlat
  | 30 => (s.addSpawn (.axisPlatform x y 3 false)).setLump Lump5_RedPlat
  | 32 => (s.addSpawn (.fallPlat x y)).setLump Lump5_RedPlat
  | 33 =>
    if D_Easy < s.difficulty then s
    else if D_Normal < s.difficulty then s
    else ck5_standPlatBody x y s
  | 34 =>
    if D_Normal < s.difficulty then s else ck5_standPlatBody x y s
  | 35 => ck5_standPlatBody x y s
  | 36 => (s.addSpawn (.goPlat x y 0 false)).setLump Lump5_RedPlat
  | 37 => (s.addSpawn (.goPlat x y 1 false)).setLump Lump5_RedPlat
  | 38 => (s.addSpawn (.goPlat x y 2 false)).setLump Lump5_RedPlat
  | 39 => (s.addSpawn (.goPlat x y 3 false)).setLump Lump5_RedPlat
  | 40 => (s.addSpawn (.sneakPlat x y)).setLump Lump5_RedPlat
  | 41 =>
    let s1 :=
      if s.currentLevel = 12 then
        ({ s with fusesRemaining := 4 }).addSpawn (.qed x y)
      else
        { s with fusesRemaining := s.fusesRemaining + 1 }
    s1.setLump Lump5_QEDFuse
  | 44 => hardGate s (normalGate s (ck5_amptonBody x y s))
  | 43 => normalGate s (ck5_amptonBody x y s)
  | 42 => ck5_amptonBody x y s
  | 53 => hardGate s (normalGate s (ck5_turretBody x y 0 s))
  | 49 => normalGate s (ck5_turretBody x y 0 s)
  | 45 => ck5_turretBody x y 0 s
  | 54 => hardGate s (normalGate s (ck5_turretBody x y 1 s))
  | 50 => normalGate s (ck5_turretBody x y 1 s)
  | 46 => ck5_turretBody x y 1 s
  | 55 => hardGate s (normalGate s (ck5_turretBody x y 2 s))
  | 51 => normalGate s (ck5_turretBody x y 2 s)
  | 47 => ck5_turretBody x y 2 s
  | 56 => hardGate s (normalGate s (ck5_turretBody x y 3 s))
  | 52 => normalGate s (ck5_turretBody x y 3 s)
  | 48 => ck5_turretBody x y 3 s
  | 69 => if s.numShots ≥ 5 then s else ck5_itemBody x y 68 s
  | 57 => ck5_itemBody x y 57 s
  | 58 => ck5_itemBody x y 58 s
  | 59 => ck5_itemBody x y 59 s
  | 60 => ck5_itemBody x y 60 s
  | 61 => ck5_itemBody x y 61 s
  | 62 => ck5_itemBody x y 62 s
  | 63 => ck5_itemBody x y 63 s
  | 64 => ck5_itemBody x y 64 s
  | 65 => ck5_itemBody x y 65 s
  | 66 => ck5_itemBody x y 66 s
  | 67 => ck5_itemBody x y 67 s
  | 68 => ck5_itemBody x y 68 s
  | 70 => (s.addSpawn (.item x y 12)).setLump Lump5_Keycard
  | 73 => hardGate s (normalGate s (ck5_volteBody x y s))
  | 72 => normalGate s (ck5_volteBody x y s)
  | 71 => ck5_volteBody x y s
  | 76 => hardGate s (normalGate s (ck5_shellyBody x y s))
  | 75 => normalGate s (ck5_shellyBody x y s)
  | 74 => ck5_shellyBody x y s
  | 79 => hardGate s (normalGate s (ck5_spindredBody x y s))
  | 78 => normalGate s (ck5_spindredBody x y s)
  | 77 => ck5_spindredBody x y s
  | 80 => (s.addSpawn (.goPlat x y 0 true)).setLump Lump5_PurplePlat
  | 81 => (s.addSpawn (.goPlat x y 1 true)).setLump Lump5_PurplePlat
  | 82 => (s.addSpawn (.goPlat x y 2 true)).setLump Lump5_PurplePlat
  | 83 => (s.addSpawn (.goPlat x y 3 true)).setLump Lump5_PurplePlat
  | 84 => (s.addSpawn (.axisPlatform x y 0 true)).setLump Lump5_PurplePlat
  | 85 => (s.addSpawn (.axisPlatform x y 1 true)).setLump Lump5_PurplePlat
  | 86 => (s.addSpawn (.axisPlatform x y 2 true)).setLump Lump5_PurplePlat
  | 87 => (s.addSpawn (.axisPlatform x y 3 true)).setLump Lump5_PurplePlat
  | 90 => hardGate s (normalGate s (ck5_masterBody x y s))
  | 89 => normalGate s (ck5_masterBody x y s)
  | 88 => ck5_masterBody x y s
  | 101 => hardGate s (normalGate s (ck5_shikadiBody x y s))
  | 100 => normalGate s (ck5_shikadiBody x y s)
  | 99 => ck5_shikadiBody x y s
  | 104 => hardGate s (normalGate s (ck5_shocksundBody x y s))
  | 103 => normalGate s (ck5_shocksundBody x y s)
  | 102 => ck5_shocksundBody x y s
  | 107 => hardGate s (normalGate s (ck5_spherefulBody x y s))
  | 106 => normalGate s (ck5_spherefulBody x y s)
  | 105 => ck5_spherefulBody x y s
  | 124 => (s.addSpawn (.korath x y)).setLump Lump5_Korath
  | 125 => s.setLump Lump5_Teleporter
  | _ => s

/-! ## The post-scan object deactivation pass.

`for (obj = ck_keenObj; obj; obj = obj->next)
   if (obj->active != OBJ_ALWAYS_ACTIVE) obj->active = OBJ_INACTIVE;`
(identical in `CK5_ScanInfoLayer` and `CK6_ScanInfoLayer`). -/

def CK_DeactivateObj (o : CKObj) : CKObj :=
  if o.active ≠ ObjActive.alwaysActive then { o with active := ObjActive.inactive } else o

def CK_DeactivateObjs (objs : List CKObj) : List CKObj :=
  objs.map CK_DeactivateObj

/-- The dimensions and info plane (plane 2) of the loaded level. -/
structure MapInput where
  mapW : Nat
  mapH : Nat
  info : Nat → Nat → Nat

/-- The level-0 map-teleporter block at the end of `CK5_ScanInfoLayer`.
`keenYTilePos = ck_keenObj->posY >> 8` is an arithmetic shift, i.e.
flooring division by 256. -/
def CK5_level0Teleporters (s : CK5ScanState) : CK5ScanState :=
  if s.currentLevel = 0 then
    let keenYTilePos : Int := Int.fdiv s.keenPosY 256
    let s1 :=
      if keenYTilePos < 75 ∨ keenYTilePos > 100 then
        { s with teleActions := s.teleActions ++ [.closeTele 24 76, .openTele 22 55] }
      else s
    let s2 :=
      if s1.levelsDone.getD 4 false ∧ s1.levelsDone.getD 6 false ∧
          s1.levelsDone.getD 8 false ∧ s1.levelsDone.getD 10 false ∧
          keenYTilePos > 39 then
        { s1 with teleActions := s1.teleActions ++ [.openTele 26 55] }
      else s1
    if keenYTilePos < 39 ∨ keenYTilePos > 100 then
      { s2 with teleActions := s2.teleActions ++ [.openTele 24 30] }
    else s2
  else s

/-- The row-major tile loop of `CK5_ScanInfoLayer`. -/
def CK5_tileFold (m : MapInput) (s : CK5ScanState) : CK5ScanState :=
  (List.range m.mapH).foldl
    (fun s y => (List.range m.mapW).foldl
      (fun s x => CK5_handleInfoTile x y (m.info x y) s) s) s

/-- `CK5_ScanInfoLayer` (`src/ck5_misc.c`): reset the fuse counter, walk
the info plane in row-major order dispatching each value, force every
non-always-active live object inactive, then issue the batch chunk-mark
requests for every needed lump category, and finally run the level-0
map-teleporter logic. -/
def CK5_ScanInfoLayer (m : MapInput) (s0 : CK5ScanState) : CK5ScanState :=
  let s2 := CK5_tileFold m { s0 with fusesRemaining := 0 }
  let s3 := { s2 with objs := CK_DeactivateObjs s2.objs }
  let s4 := { s3 with markRequests := s3.markRequests ++ ck5_batchMarks s3.lumpsNeeded }
  CK5_level0Teleporters s4

/-! ## CK6 lump tables (`ck6_misc.c`, `CK6_LumpType`, `ck6_lumpStarts`,
`ck6_lumpEnds`, `ck6_itemLumps`). -/

def CK6_MAXLUMPS : Nat := 0x28

def Lump6_Keen : Nat := 1
def Lump6_100Pts : Nat := 2
def Lump6_200Pts : Nat := 3
def Lump6_500Pts : Nat := 4
def Lump6_1000Pts : Nat := 5
def Lump6_2000Pts : Nat := 6
def Lump6_5000Pts : Nat := 7
def Lump6_1UP : Nat := 8
def Lump6_Gems : Nat := 9
def Lump6_Stunner : Nat := 10
def Lump6_Mapkeen : Nat := 11
def Lump6_Bloog : Nat := 13
def Lump6_BloogletR : Nat := 14
def Lump6_Platform : Nat := 18
def Lump6_Gik : Nat := 19
def Lump6_Blorb : Nat := 20
def Lump6_Bobba : Nat := 21
def Lump6_Babobba : Nat := 22
def Lump6_Bloogguard : Nat := 23
def Lump6_Flect : Nat := 24
def Lump6_Bip : Nat := 25
def Lump6_PlatBip : Nat := 26
def Lump6_Bipship : Nat := 27
def Lump6_Nospike : Nat := 28
def Lump6_Orbatrix : Nat := 29
def Lump6_Ceilick : Nat := 30
def Lump6_Fleex : Nat := 31
def Lump6_Rope : Nat := 32
def Lump6_Sandwich : Nat := 33
def Lump6_Turret : Nat := 34
def Lump6_Passcard : Nat := 35
def Lump6_Molly : Nat := 36

def ck6_itemLumps : List Nat :=
  [Lump6_Gems, Lump6_Gems, Lump6_Gems, Lump6_Gems,
   Lump6_100Pts, Lump6_200Pts, Lump6_500Pts, Lump6_1000Pts,
   Lump6_2000Pts, Lump6_5000Pts, Lump6_1UP, Lump6_Stunner]

def ck6_lumpStarts : List Nat :=
  [11, 52, 150, 152, 154, 156, 158, 160, 162, 164,
   173, 184, 0, 342, 351, 360, 369, 378, 424, 387,
   399, 402, 285, 254, 317, 414, 423, 269, 298, 329,
   246, 239, 183, 182, 176, 435, 433, 0, 0, 0]

def ck6_lumpEnds : List Nat :=
  [26, 149, 151, 153, 155, 157, 159, 161, 163, 172,
   174, 238, 0, 350, 359, 368, 377, 386, 432, 398,
   401, 413, 297, 268, 328, 422, 423, 284, 316, 341,
   253, 245, 183, 182, 181, 435, 434, 0, 0, 0]

/-- Inclusive chunk range of CK6 lump category `i` (see `ck5_chunkRange`). -/
def ck6_chunkRange (i : Nat) : List Nat :=
  List.range' (ck6_lumpStarts.getD i 0)
    (ck6_lumpEnds.getD i 0 + 1 - ck6_lumpStarts.getD i 0)

/-- The chunk-cache requests issued by the batch pass at the end of
`CK6_ScanInfoLayer` (`for i ... if (ck6_lumpsNeeded[i]) for j ... CA_CacheGrChunk(j)`). -/
def ck6_batchCaches (needed : List Bool) : List Nat :=
  (List.range CK6_MAXLUMPS).flatMap
    (fun i => if needed.getD i false then ck6_chunkRange i else [])

/-- CK6 scanner state (game state read by `CK6_ScanInfoLayer`, the
`ck6_lumpsNeeded` flag array and effect logs). -/
structure CK6ScanState where
  difficulty : Nat
  numShots : Int
  currentLevel : Int
  lumpsNeeded : List Bool
  graphChunkNeeded : List Nat
  spawns : List Spawn
  scrollBlocks : List (Nat × Nat × Bool)
  cacheRequests : List Nat
  objs : List CKObj
  deriving DecidableEq, Repr

namespace CK6ScanState

/-- `ck6_lumpsNeeded[i] = true;` -/
def setLump (s : CK6ScanState) (i : Nat) : CK6ScanState :=
  { s with lumpsNeeded := s.lumpsNeeded.set i true }

/-- Record a call to an external spawner function. -/
def addSpawn (s : CK6ScanState) (sp : Spawn) : CK6ScanState :=
  { s with spawns := s.spawns ++ [sp] }

/-- `ca_graphChunkNeeded[c] |= ca_levelbit;` -/
def markChunk (s : CK6ScanState) (c : Nat) : CK6ScanState :=
  { s with graphChunkNeeded := s.graphChunkNeeded ++ [c] }

end CK6ScanState

/-- CK6 Hard gate (`if (ck_gameState.difficulty < D_Hard) break;`). -/
def hardGate6 (s : CK6ScanState) (body : CK6ScanState) : CK6ScanState :=
  if s.difficulty < D_Hard then s else body

/-- CK6 Normal gate. -/
def normalGate6 (s : CK6ScanState) (body : CK6ScanState) : CK6ScanState :=
  if s.difficulty < D_Normal then s else body

/-! Shared cascade bodies of `CK6_ScanInfoLayer`. -/

def ck6_bloogBody (x y : Nat) (s : CK6ScanState) : CK6ScanState :=
  (s.setLump Lump6_Bloog).addSpawn (.bloog x y)

def ck6_fleexBody (x y : Nat) (s : CK6ScanState) : CK6ScanState :=
  (s.setLump Lump6_Fleex).addSpawn (.fleex x y)

def ck6_standPlatBody6 (x y : Nat) (s : CK6ScanState) : CK6ScanState :=
  (s.addSpawn (.standPlatform x y)).setLump Lump6_Platform

def ck6_bobbaBody (x y : Nat) (s : CK6ScanState) : CK6ScanState :=
  (s.setLump Lump6_Bobba).addSpawn (.bobba x y)

def ck6_nospikeBody (x y : Nat) (s : CK6ScanState) : CK6ScanState :=
  (s.setLump Lump6_Nospike).addSpawn (.nospike x y)

def ck6_gikBody (x y : Nat) (s : CK6ScanState) : CK6ScanState :=
  (s.setLump Lump6_Gik).addSpawn (.gik x y)

def ck6_itemBody (x y : Nat) (v : Nat) (s : CK6ScanState) : CK6ScanState :=
  (s.addSpawn (.item x y (v - 57))).setLump (ck6_itemLumps.getD (v - 57) 0)

def ck6_orbatrixBody (x y : Nat) (s : CK6ScanState) : CK6ScanState :=
  (s.setLump Lump6_Orbatrix).addSpawn (.orbatrix x y)

def ck6_bipshipBody (x y : Nat) (s : CK6ScanState) : CK6ScanState :=
  (((s.setLump Lump6_Bip).setLump Lump6_PlatBip).setLump Lump6_Bipship).addSpawn
    (.bipship x y)

def ck6_flectBody (x y : Nat) (s : CK6ScanState) : CK6ScanState :=
  (s.setLump Lump6_Flect).addSpawn (.flect x y)

def ck6_blorbBody (x y : Nat) (s : CK6ScanState) : CK6ScanState :=
  (s.setLump Lump6_Blorb).addSpawn (.blorb x y)

def ck6_ceilickBody (x y : Nat) (s : CK6ScanState) : CK6ScanState :=
  (s.setLump Lump6_Ceilick).addSpawn (.ceilick x y)

def ck6_bloogguardBody (x y : Nat) (s : CK6ScanState) : CK6ScanState :=
  (s.setLump Lump6_Bloogguard).addSpawn (.bloogguard x y)

def ck6_babobbaBody (x y : Nat) (s : CK6ScanState) : CK6ScanState :=
  (s.setLump Lump6_Babobba).addSpawn (.babobba x y)

/-- One `case` dispatch of the `switch (infoValue)` statement inside the
tile loop of `CK6_ScanInfoLayer` (`src/ck6_misc.c`). -/
def CK6_handleInfoTile (x y : Nat) (infoValue : Nat) (s : CK6ScanState) :
    CK6ScanState :=
  match infoValue with
  | 1 => (((s.addSpawn (.keen x y 1)).addSpawn .demoSign).markChunk 175).setLump Lump6_Keen
  | 2 => (((s.addSpawn (.keen x y (-1))).addSpawn .demoSign).markChunk 175).setLump Lump6_Keen
  | 3 => (((s.addSpawn .demoSign).markChunk 175).addSpawn (.mapKeen x y)).setLump Lump6_Mapkeen
  | 6 => hardGate6 s (normalGate6 s (ck6_bloogBody x y s))
  | 5 => normalGate6 s (ck6_bloogBody x y s)
  | 4 => ck6_bloogBody x y s
  | 7 => (s.setLump (Lump6_BloogletR + (7 - 7) % 4)).addSpawn (.blooglet x y 0)
  | 8 => (s.setLump (Lump6_BloogletR + (8 - 7) % 4)).addSpawn (.blooglet x y 1)
  | 9 => (s.setLump (Lump6_BloogletR + (9 - 7) % 4)).addSpawn (.blooglet x y 2)
  | 10 => (s.setLump (Lump6_BloogletR + (10 - 7) % 4)).addSpawn (.blooglet x y 3)
  | 11 => (s.setLump (Lump6_BloogletR + (11 - 7) % 4)).addSpawn (.blooglet x y 4)
  | 12 => (s.setLump (Lump6_BloogletR + (12 - 7) % 4)).addSpawn (.blooglet x y 5)
  | 13 => (s.setLump (Lump6_BloogletR + (13 - 7) % 4)).addSpawn (.blooglet x y 6)
  | 14 => (s.setLump (Lump6_BloogletR + (14 - 7) % 4)).addSpawn (.blooglet x y 7)
  | 15 => s.addSpawn (.mapCliff x y 0)
  | 16 => s.addSpawn (.mapCliff x y 1)
  | 24 => (s.setLump Lump6_Molly).addSpawn (.molly x y)
  | 20 => hardGate6 s (normalGate6 s (ck6_fleexBody x y s))
  | 19 => normalGate6 s (ck6_fleexBody x y s)
  | 18 => ck6_fleexBody x y s
  | 25 => { s with scrollBlocks := s.scrollBlocks ++ [(x, y, true)] }
  | 26 => { s with scrollBlocks := s.scrollBlocks ++ [(x, y, false)] }
  | 27 => (s.addSpawn (.axisPlatform x y 0 false)).setLump Lump6_Platform
  | 28 => (s.addSpawn (.axisPlatform x y 1 false)).setLump Lump6_Platform
  | 29 => (s.addSpawn (.axisPlatform x y 2 false)).setLump Lump6_Platform
  | 30 => (s.addSpawn (.axisPlatform x y 3 false)).setLump Lump6_Platform
  | 32 => (s.addSpawn (.fallPlat x y)).setLump Lump6_Platform
  | 33 =>
    if D_Easy < s.difficulty then s
    else if D_Normal < s.difficulty then s
    else ck6_standPlatBody6 x y s
  | 34 =>
    if D_Normal < s.difficulty then s else ck6_standPlatBody6 x y s
  | 35 => ck6_standPlatBody6 x y s
  | 36 => ((s.addSpawn (.goPlat x y 0 false)).setLump Lump6_Platform).setLump Lump6_PlatBip
  | 37 => ((s.addSpawn (.goPlat x y 1 false)).setLump Lump6_Platform).setLump Lump6_PlatBip
  | 38 => ((s.addSpawn (.goPlat x y 2 false)).setLump Lump6_Platform).setLump Lump6_PlatBip
  | 39 => ((s.addSpawn (.goPlat x y 3 false)).setLump Lump6_Platform).setLump Lump6_PlatBip
  | 40 => (s.addSpawn (.sneakPlat x y)).setLump Lump6_Platform
  | 43 => hardGate6 s (normalGate6 s (ck6_bobbaBody x y s))
  | 42 => normalGate6 s (ck6_bobbaBody x y s)
  | 41 => ck6_bobbaBody x y s
  | 44 => s.addSpawn (.satelliteLoading x y 0)
  | 45 => s.addSpawn (.satelliteLoading x y 1)
  | 49 => hardGate6 s (normalGate6 s (ck6_nospikeBody x y s))
  | 48 => normalGate6 s (ck6_nospikeBody x y s)
  | 47 => ck6_nospikeBody x y s
  | 52 => hardGate6 s (normalGate6 s (ck6_gikBody x y s))
  | 51 => normalGate6 s (ck6_gikBody x y s)
  | 50 => ck6_gikBody x y s
  | 53 => (s.setLump Lump6_Turret).addSpawn (.turret x y 0)
  | 54 => (s.setLump Lump6_Turret).addSpawn (.turret x y 1)
  | 55 => (s.setLump Lump6_Turret).addSpawn (.turret x y 2)
  | 56 => (s.setLump Lump6_Turret).addSpawn (.turret x y 3)
  | 69 => if s.numShots ≥ 5 then s else ck6_itemBody x y 68 s
  | 57 => ck6_itemBody x y 57 s
  | 58 => ck6_itemBody x y 58 s
  | 59 => ck6_itemBody x y 59 s
  | 60 => ck6_itemBody x y 60 s
  | 61 => ck6_itemBody x y 61 s
  | 62 => ck6_itemBody x y 62 s
  | 63 => ck6_itemBody x y 63 s
  | 64 => ck6_itemBody x y 64 s
  | 65 => ck6_itemBody x y 65 s
  | 66 => ck6_itemBody x y 66 s
  | 67 => ck6_itemBody x y 67 s
  | 68 => ck6_itemBody x y 68 s
  | 72 => hardGate6 s (normalGate6 s (ck6_orbatrixBody x y s))
  | 71 => normalGate6 s (ck6_orbatrixBody x y s)
  | 70 => ck6_orbatrixBody x y s
  | 75 => hardGate6 s (normalGate6 s (ck6_bipshipBody x y s))
  | 74 => normalGate6 s (ck6_bipshipBody x y s)
  | 73 => ck6_bipshipBody x y s
  | 78 => hardGate6 s (normalGate6 s (ck6_flectBody x y s))
  | 77 => normalGate6 s (ck6_flectBody x y s)
  | 76 => ck6_flectBody x y s
  | 81 => hardGate6 s (normalGate6 s (ck6_blorbBody x y s))
  | 80 => normalGate6 s (ck6_blorbBody x y s)
  | 79 => ck6_blorbBody x y s
  | 84 => hardGate6 s (normalGate6 s (ck6_ceilickBody x y s))
  | 83 => normalGate6 s (ck6_ceilickBody x y s)
  | 82 => ck6_ceilickBody x y s
  | 87 => hardGate6 s (normalGate6 s (ck6_bloogguardBody x y s))
  | 86 => normalGate6 s (ck6_bloogguardBody x y s)
  | 85 => ck6_bloogguardBody x y s
  | 88 => s.addSpawn (.grabbiter x y)
  | 89 => s.addSpawn (.satellite x y)
  | 99 => (s.setLump Lump6_Rope).addSpawn (.rope x y)
  | 100 => (s.setLump Lump6_Sandwich).addSpawn (.sandwich x y)
  | 101 => (s.setLump Lump6_Passcard).addSpawn (.passcard x y)
  | 104 => hardGate6 s (normalGate6 s (ck6_babobbaBody x y s))
  | 103 => normalGate6 s (ck6_babobbaBody x y s)
  | 102 => ck6_babobbaBody x y s
  | 105 => s.addSpawn (.rocket x y 0)
  | _ => s

/-- The row-major tile loop of `CK6_ScanInfoLayer`. -/
def CK6_tileFold (m : MapInput) (s : CK6ScanState) : CK6ScanState :=
  (List.range m.mapH).foldl
    (fun s y => (List.range m.mapW).foldl
      (fun s x => CK6_handleInfoTile x y (m.info x y) s) s) s

/-- `CK6_ScanInfoLayer` (`src/ck6_misc.c`): walk the info plane in
row-major order dispatching each value, force every non-always-active
live object inactive, then issue the batch chunk-cache requests for
every needed lump category.  (The `currentLevel == 0` block is empty in
CK6.) -/
def CK6_ScanInfoLayer (m : MapInput) (s0 : CK6ScanState) : CK6ScanState :=
  let s2 := CK6_tileFold m s0
  let s3 := { s2 with objs := CK_DeactivateObjs s2.objs }
  { s3 with cacheRequests := s3.cacheRequests ++ ck6_batchCaches s3.lumpsNeeded }

/-! ## Galaxy-explosion cutscene particles
(`CK_GalExplodeUpdateCoords`, `src/ck5_misc.c`).

A star has a 16-bit unsigned position (`uint16_t x, y`) and a signed
velocity (`int16_t dx, dy`); `newPos = info->x[i] + info->dx[i]` is
16-bit wrapping addition. -/

structure Star where
  x : Nat
  dx : Int
  y : Nat
  dy : Int
  deriving DecidableEq, Repr

/-- 16-bit unsigned wrapping addition of a signed offset. -/
def uint16add (a : Nat) (d : Int) : Nat := (((a : Int) + d) % 65536).toNat

/-- The per-star body of the update loop in `CK_GalExplodeUpdateCoords`:
returns the star's updated coordinates and the pixel passed to
`VH_Plot`, or `none` when the `continue` was taken. -/
def CK_GalExplodeStarStep (s : Star) : Star × Option (Nat × Nat) :=
  let newX := uint16add s.x s.dx
  if 320 * 0x80 < newX then (s, none)
  else
    let s1 := { s with x := newX }
    let newY := uint16add s.y s.dy
    if 200 * 0x80 < newY then (s1, none)
    else
      let s2 := { s1 with y := newY }
      (s2, some (s2.x / 0x80, s2.y / 0x80))

/-- A star's coordinates after `n` frames of `CK_GalExplodeUpdateCoords`. -/
def CK_GalExplodeStarIter (n : Nat) (s : Star) : Star :=
  match n with
  | 0 => s
  | n + 1 => CK_GalExplodeStarIter n (CK_GalExplodeStarStep s).1

/-- One whole call of `CK_GalExplodeUpdateCoords`: the buffer is blanked
(`VH_Bar(0,0,320,200,0)`), every star is stepped (the loop runs
`i = 3999` down to `0`, so plots are emitted in reverse list order), and
the plotted pixels of this frame are returned alongside the new star
array. -/
def CK_GalExplodeUpdateCoords (stars : List Star) :
    List Star × List (Nat × Nat) :=
  (stars.map (fun s => (CK_GalExplodeStarStep s).1),
   stars.foldl
     (fun acc s =>
       match (CK_GalExplodeStarStep s).2 with
       | some p => p :: acc
       | none => acc) [])

/-! ## Episode presence checks
(`CK5_IsPresent` in `src/ck5_misc.c`, `CK6_IsPresent` in
`src/ck6_misc.c`, file helpers in `src/id_fs.c`).

A file environment records which file names open successfully in the
user-provided Keen directory and in the omnispeak directory, plus the
size `FS_GetFileSize` reports for `EGAGRAPH.CK6`.  `FS_OpenOmniFile`
looks in the Keen directory first, so an omni file is present when
either directory has it. -/

structure FSEnv where
  keenFiles : String → Bool
  omniFiles : String → Bool
  egaGraphSize : Nat

/-- `FS_IsKeenFilePresent` (`src/id_fs.c`). -/
def FS_IsKeenFilePresent (env : FSEnv) (f : String) : Bool := env.keenFiles f

/-- `FS_IsOmniFilePresent` (`src/id_fs.c`): `FS_OpenOmniFile` tries the
Keen directory, then the omni directory. -/
def FS_IsOmniFilePresent (env : FSEnv) (f : String) : Bool :=
  env.keenFiles f || env.omniFiles f

/-- The two `CK_EpisodeDef` records `ck6v14e_episode` / `ck6v15e_episode`
the global `ck6_episode` pointer can be set to. -/
inductive CK6Version where
  | v14e
  | v15e
  deriving DecidableEq, Repr

/-- Run the C code's per-file early-return sequence
(`if (!present(f)) return false;` for each file, in order): true only
when every file in the list is present. -/
def FS_filesPresent (present : String → Bool) : List String → Bool
  | [] => true
  | f :: rest => if !present f then false else FS_filesPresent present rest

/-- The three user-provided files `CK5_IsPresent` checks first, in
source order. -/
def ck5_userFiles : List String := ["EGAGRAPH.CK5", "GAMEMAPS.CK5", "AUDIO.CK5"]

/-- The omnispeak-provided files `CK5_IsPresent` checks next, in source
order. -/
def ck5_omniFiles : List String :=
  ["EGAHEAD.CK5", "EGADICT.CK5", "GFXINFOE.CK5", "MAPHEAD.CK5",
   "AUDIODCT.CK5", "AUDIOHHD.CK5", "AUDINFOE.CK5", "ACTION.CK5"]

/-- The three user-provided CK6 files checked before the global is set,
in source order. -/
def ck6_userFiles : List String := ["EGAGRAPH.CK6", "GAMEMAPS.CK6", "AUDIO.CK6"]

/-- The omnispeak-provided CK6 files checked after the global is set,
in source order. -/
def ck6_omniFiles : List String :=
  ["EGAHEAD.CK6", "EGADICT.CK6", "GFXINFOE.CK6", "MAPHEAD.CK6",
   "AUDIODCT.CK6", "AUDIOHHD.CK6", "AUDINFOE.CK6", "ACTION.CK6"]

/-- `CK5_IsPresent` (`src/ck5_misc.c`): one early `return false` per
missing file (rendered as the early-return sequence over the ordered
file lists), `return true` at the end.  The `ck6_episode` global is
threaded through so that the absence of writes to it is part of the
function's meaning; CK5's check involves no assignment at all. -/
def CK5_IsPresent (env : FSEnv) (ep : Option CK6Version) :
    Bool × Option CK6Version :=
  if !FS_filesPresent (FS_IsKeenFilePresent env) ck5_userFiles then (false, ep)
  else if !FS_filesPresent (FS_IsOmniFilePresent env) ck5_omniFiles then
    (false, ep)
  else (true, ep)

/-- `CK6_IsPresent` (`src/ck6_misc.c`): after the three user-file
checks it opens `EGAGRAPH.CK6`, reads its size and assigns the
`ck6_episode` global, *before* checking the omnispeak-provided files. -/
def CK6_IsPresent (env : FSEnv) (ep : Option CK6Version) :
    Bool × Option CK6Version :=
  if !FS_filesPresent (FS_IsKeenFilePresent env) ck6_userFiles then (false, ep)
  else
    let ep2 : Option CK6Version :=
      some (if env.egaGraphSize = 464662 then CK6Version.v15e else CK6Version.v14e)
    if !FS_filesPresent (FS_IsOmniFilePresent env) ck6_omniFiles then (false, ep2)
    else (true, ep2)

/-! ## Enemy projectile spawn (`CK5_SpawnEnemyShot`, `src/ck5_misc.c`).

The object registry is an external collaborator; its acquire/release
calls are modelled from the spec interface. -/

/-- `CT5_EnemyShot` comes from `ck5_ep.h`, which is outside the
repository snapshot; the claims depend only on it being the tag the
spawner assigns, not on the numeral. -/
def CT5_EnemyShot : Nat := 16

/-- The object registry: a bounded pool of slots. -/
structure ObjPool where
  free : List Nat
  live : List CKObj
  deriving DecidableEq, Repr

/-- Modelled from the spec: the Object Registry interface
`AcquireObject(clearAll:boolean) -> handle|null-on-exhaustion`
(`CK_GetNewObj` lives outside the repository snapshot).  Acquiring
takes a free slot and links a fresh cleared object into the live list. -/
def CK_GetNewObj (p : ObjPool) : Option (Nat × ObjPool) :=
  match p.free with
  | [] => none
  | i :: rest => some (i, { free := rest, live := p.live })

/-- Modelled from the spec: the Object Registry interface
`ReleaseObject(handle)` (`CK_RemoveObj` lives outside the repository
snapshot).  Releasing unlinks the object and returns its slot. -/
def CK_RemoveObj (p : ObjPool) (o : CKObj) : ObjPool :=
  { free := o.id :: p.free, live := p.live.filter (fun q => q.id ≠ o.id) }

/-- `CK5_SpawnEnemyShot` (`src/ck5_misc.c`): acquire an object, place it,
tag it `CT5_EnemyShot` with `OBJ_EXISTS_ONLY_ONSCREEN`, then release it
again and return `NULL` when `CK_NotStuckInWall` fails.  The wall test
is an external collision query, passed in as a predicate. -/
def CK5_SpawnEnemyShot (p : ObjPool) (posX posY : Int)
    (notStuckInWall : CKObj → Bool) : ObjPool × Option CKObj :=
  match CK_GetNewObj p with
  | none => (p, none)
  | some (i, p1) =>
    let o : CKObj :=
      { id := i, type := CT5_EnemyShot, active := ObjActive.existsOnscreen,
        posX := posX, posY := posY }
    let p2 : ObjPool := { p1 with live := p1.live ++ [o] }
    if notStuckInWall o then (p2, some o)
    else (CK_RemoveObj p2 o, none)

/-! ## Map-state mutator: the big switch (`CK6_ToggleBigSwitch`,
`src/ck6_misc.c`).

Tile planes are total functions from (possibly negative, as the C code
computes coordinates like `destX - 1`) coordinates to 16-bit tile
values.  `TI_ForeAnimTile` and `TI_ForeMisc` decode external tile-info
data and are passed in as functions. -/

/-- Point update of a tile plane. -/
def writeTile (plane : Int → Int → Nat) (x y : Int) (v : Nat) :
    Int → Int → Nat :=
  fun a b => if a = x ∧ b = y then v else plane a b

/-- `newTile = currentTile + TI_ForeAnimTile(currentTile)` in `uint16_t`
arithmetic. -/
def animToggleTile (anim : Nat → Int) (t : Nat) : Nat :=
  uint16add t (anim t)

/-- One row of the bridge branch of `CK6_ToggleBigSwitch`:
`for (x = startX; x < mapW; ++x) { t = fg(x,y); if (!anim(t)) break;
 replace fg(x,y) with t + anim(t); }`.  The loop bound `x < mapW` is
rendered as fuel `(mapW - startX).toNat`, one unit per iteration. -/
def bridgeRow (anim : Nat → Int) (y : Int) (x : Int) (fuel : Nat)
    (fg : Int → Int → Nat) : Int → Int → Nat :=
  match fuel with
  | 0 => fg
  | fuel + 1 =>
    let t := fg x y
    if anim t = 0 then fg
    else bridgeRow anim y (x + 1) fuel (writeTile fg x y (animToggleTile anim t))

/-- The `miscValue == MISCFLAG_BRIDGE` branch of `CK6_ToggleBigSwitch`:
row `destY` is toggled starting at `destX`, row `destY + 1` starting at
`destX - 1`, each until a tile with zero animation offset or the map
edge. -/
def CK6_ToggleBridge (anim : Nat → Int) (mapW : Int) (destX destY : Int)
    (fg : Int → Int → Nat) : Int → Int → Nat :=
  let fg1 := bridgeRow anim destY destX (mapW - destX).toNat fg
  bridgeRow anim (destY + 1) (destX - 1) (mapW - (destX - 1)).toNat fg1

/-- The `while (!*infoTile) { tx++; infoTile++; }` scan of
`CK6_ToggleBigSwitch`, on the info plane viewed as the row-major memory
sequence the incremented pointer walks.  `k` is the offset from the
scan's starting cell; the fuel makes the by-design unbounded loop a
total function. -/
def CK6_ScanForInfoTile (info : Nat → Nat) (k : Nat) : Nat → Option Nat
  | 0 => none
  | fuel + 1 => if info k ≠ 0 then some k else CK6_ScanForInfoTile info (k + 1) fuel

/-- The same scan expressed on a two-dimensional info plane, walking
along the pointer's row (`tx++; infoTile++;`). -/
def CK6_ScanForInfoTileX (info : Int → Int → Nat) (x y : Int) : Nat → Option Int
  | 0 => none
  | fuel + 1 =>
    if info x y ≠ 0 then some x else CK6_ScanForInfoTileX info (x + 1) y fuel

/-! The foreground misc-flag values dispatched on by
`CK6_ToggleBigSwitch` come from a header outside the repository
snapshot; the code only compares them for equality, so the exact
numerals are immaterial as long as they are distinct. -/

def MISCFLAG_DEADLY : Nat := 10
def MISCFLAG_ACTIVEZAPPER : Nat := 11
def MISCFLAG_INACTIVEZAPPER : Nat := 12
def MISCFLAG_BRIDGE : Nat := 13

/-- `static uint16_t infoPlaneInverses[8] = {2, 3, 0, 1, 6, 7, 4, 5};` -/
def infoPlaneInverses : List Nat := [2, 3, 0, 1, 6, 7, 4, 5]

/-- The zapper extend/retract `while` loops of `CK6_ToggleBigSwitch`:
write `midTile` and advance `destY` while `keepGoing` holds of the
foreground tile, returning the updated plane and the final `destY`.
The C loop is unbounded by design, hence the fuel. -/
def CK6_ZapperRun (keepGoing : Nat → Bool) (midTile : Nat) (x : Int)
    (fg : Int → Int → Nat) (y : Int) : Nat → Option ((Int → Int → Nat) × Int)
  | 0 => none
  | fuel + 1 =>
    if keepGoing (fg x y) then
      CK6_ZapperRun keepGoing midTile x (writeTile fg x y midTile) (y + 1) fuel
    else some (fg, y)

/-- `CK6_ToggleBigSwitch` (`src/ck6_misc.c`): find the routing info tile
next to the switch, toggle the 2×3 switch block, decode the destination
coordinate from the info value, and dispatch on the destination's
foreground misc flag (goplat arrow / active zapper / inactive zapper /
bridge / generic B block).  Returns the updated foreground and info
planes, or `none` if one of the by-design unbounded loops exceeds its
fuel. -/
def CK6_ToggleBigSwitch (anim : Nat → Int) (misc : Nat → Nat) (mapW : Int)
    (fg info : Int → Int → Nat) (tileX1 tileY1 tileY2 : Int) (dir : Bool)
    (scanFuel zapFuel : Nat) :
    Option ((Int → Int → Nat) × (Int → Int → Nat)) :=
  let ty := if dir then tileY2 else tileY1 - 2
  let tx0 := tileX1 - 1
  match CK6_ScanForInfoTileX info (tx0 + 1) (ty + 1) scanFuel with
  | none => none
  | some xFound =>
    let tx := xFound - 1
    -- replace the 2×3 switch block with its animated counterparts
    let fgSw : Int → Int → Nat := fun a b =>
      if tx ≤ a ∧ a < tx + 2 ∧ ty ≤ b ∧ b < ty + 3 then
        animToggleTile anim (fg a b)
      else fg a b
    let infoVal := info (tx + 1) (ty + 1)
    let destX : Int := (infoVal / 256 : Nat)
    let destY : Int := (infoVal % 256 : Nat)
    let destInfo := info destX destY
    if 0x5B ≤ destInfo ∧ destInfo < 0x5B + 8 then
      -- toggle a goplat arrow
      some (fgSw, writeTile info destX destY
        (infoPlaneInverses.getD (destInfo - 0x5B) 0 + 0x5B))
    else
      let miscValue := misc (fgSw destX destY) % 0x80
      if miscValue = MISCFLAG_ACTIVEZAPPER then
        let tStart := fgSw 0 0
        let tMid := fgSw 1 0
        let tEnd := fgSw 2 0
        let fgZ := writeTile fgSw destX destY tStart
        match CK6_ZapperRun (fun t => misc t = MISCFLAG_DEADLY) tMid destX fgZ
            (destY + 1) zapFuel with
        | none => none
        | some (fgR, yEnd) => some (writeTile fgR destX yEnd tEnd, info)
      else if miscValue = MISCFLAG_INACTIVEZAPPER then
        let tStart := fgSw 3 0
        let tMid := fgSw 4 0
        let tEnd := fgSw 5 0
        let fgZ := writeTile fgSw destX destY tStart
        match CK6_ZapperRun (fun t => misc t ≠ MISCFLAG_INACTIVEZAPPER) tMid destX fgZ
            (destY + 1) zapFuel with
        | none => none
        | some (fgR, yEnd) => some (writeTile fgR destX yEnd tEnd, info)
      else if miscValue = MISCFLAG_BRIDGE then
        some (CK6_ToggleBridge anim mapW destX destY fgSw, info)
      else
        -- toggle a B block
        some (fgSw, writeTile info destX destY (destInfo ^^^ 0x1F))

/-! ## Helper lemmas -/

@[simp]
lemma CK5_addSpawn_objs (s : CK5ScanState) (sp : Spawn) :
    (s.addSpawn sp).objs = s.objs := rfl

@[simp]
lemma CK5_setLump_objs (s : CK5ScanState) (i : Nat) :
    (s.setLump i).objs = s.objs := rfl

@[simp]
lemma CK5_markChunk_objs (s : CK5ScanState) (c : Nat) :
    (s.markChunk c).objs = s.objs := rfl

@[simp]
lemma CK5_addSpawn_lumpsNeeded (s : CK5ScanState) (sp : Spawn) :
    (s.addSpawn sp).lumpsNeeded = s.lumpsNeeded := rfl

@[simp]
lemma CK5_markChunk_lumpsNeeded (s : CK5ScanState) (c : Nat) :
    (s.markChunk c).lumpsNeeded = s.lumpsNeeded := rfl

@[simp]
lemma CK5_setLump_lumpsNeeded (s : CK5ScanState) (i : Nat) :
    (s.setLump i).lumpsNeeded = s.lumpsNeeded.set i true := rfl

@[simp]
lemma CK5_addSpawn_spawns (s : CK5ScanState) (sp : Spawn) :
    (s.addSpawn sp).spawns = s.spawns ++ [sp] := rfl

@[simp]
lemma CK5_setLump_spawns (s : CK5ScanState) (i : Nat) :
    (s.setLump i).spawns = s.spawns := rfl

@[simp]
lemma CK5_markChunk_spawns (s : CK5ScanState) (c : Nat) :
    (s.markChunk c).spawns = s.spawns := rfl

@[simp]
lemma CK6_addSpawn_objs (s : CK6ScanState) (sp : Spawn) :
    (s.addSpawn sp).objs = s.objs := rfl

@[simp]
lemma CK6_setLump_objs (s : CK6ScanState) (i : Nat) :
    (s.setLump i).objs = s.objs := rfl

@[simp]
lemma CK6_markChunk_objs (s : CK6ScanState) (c : Nat) :
    (s.markChunk c).objs = s.objs := rfl

@[simp]
lemma CK6_addSpawn_lumpsNeeded (s : CK6ScanState) (sp : Spawn) :
    (s.addSpawn sp).lumpsNeeded = s.lumpsNeeded := rfl

@[simp]
lemma CK6_markChunk_lumpsNeeded (s : CK6ScanState) (c : Nat) :
    (s.markChunk c).lumpsNeeded = s.lumpsNeeded := rfl

@[simp]
lemma CK6_setLump_lumpsNeeded (s : CK6ScanState) (i : Nat) :
    (s.setLump i).lumpsNeeded = s.lumpsNeeded.set i true := rfl

@[simp]
lemma CK6_addSpawn_spawns (s : CK6ScanState) (sp : Spawn) :
    (s.addSpawn sp).spawns = s.spawns ++ [sp] := rfl

@[simp]
lemma CK6_setLump_spawns (s : CK6ScanState) (i : Nat) :
    (s.setLump i).spawns = s.spawns := rfl

/-- A fold preserves any invariant its step preserves. -/
lemma foldl_invariant {α σ : Type _} (f : σ → α → σ) (P : σ → Prop)
    (hf : ∀ s a, P s → P (f s a)) :
    ∀ (l : List α) (s : σ), P s → P (l.foldl f s) := by
  intro l
  induction l with
  | nil => intro s hs; simpa using hs
  | cons a l ih => intro s hs; exact ih _ (hf s a hs)

/-- `getD` at an index other than the one being set is unchanged. -/
lemma getD_set_ne {β : Type _} [Inhabited β] (l : List β) (i j : Nat) (b d : β)
    (h : i ≠ j) : (l.set i b).getD j d = l.getD j d := by
  simp [List.getD, List.getElem?_set_ne h]

/-- `getD` at the index being set, when the index is in range. -/
lemma getD_set_self {β : Type _} (l : List β) (i : Nat) (b d : β)
    (h : i < l.length) : (l.set i b).getD i d = b := by
  simp [List.getD, List.getElem?_set_self, h]

set_option maxHeartbeats 4000000 in
/-- The CK5 tile dispatch never touches the live-object list: spawning
goes through external spawner calls, recorded as descriptors. -/
lemma CK5_handleInfoTile_objs (x y v : Nat) (s : CK5ScanState) :
    (CK5_handleInfoTile x y v s).objs = s.objs := by
  unfold CK5_handleInfoTile
  split <;>
    first
      | rfl
      | (dsimp only [hardGate, normalGate]; split_ifs <;> rfl)
      | (split_ifs <;> rfl)

/-! ## Difficulty cascades (claim C1) -/

/-- The behaviour the code gives a `{base, +Normal, +Hard}` cascade
`(hcode, ncode, bcode)`: the Hard-gated code is a no-op below Hard and
exactly the base handler at Hard and above; the Normal-gated code is a
no-op below Normal and exactly the base handler at Normal and above;
the base handler performs exactly one spawn. -/
def CK5CascadeOK (hcode ncode bcode : Nat) : Prop :=
  ∀ (x y : Nat) (s : CK5ScanState),
    (s.difficulty < D_Hard → CK5_handleInfoTile x y hcode s = s) ∧
    (D_Hard ≤ s.difficulty →
      CK5_handleInfoTile x y hcode s = CK5_handleInfoTile x y bcode s) ∧
    (s.difficulty < D_Normal → CK5_handleInfoTile x y ncode s = s) ∧
    (D_Normal ≤ s.difficulty →
      CK5_handleInfoTile x y ncode s = CK5_handleInfoTile x y bcode s) ∧
    (CK5_handleInfoTile x y bcode s).spawns.length = s.spawns.length + 1

/-- CK6 version of `CK5CascadeOK`. -/
def CK6CascadeOK (hcode ncode bcode : Nat) : Prop :=
  ∀ (x y : Nat) (s : CK6ScanState),
    (s.difficulty < D_Hard → CK6_handleInfoTile x y hcode s = s) ∧
    (D_Hard ≤ s.difficulty →
      CK6_handleInfoTile x y hcode s = CK6_handleInfoTile x y bcode s) ∧
    (s.difficulty < D_Normal → CK6_handleInfoTile x y ncode s = s) ∧
    (D_Normal ≤ s.difficulty →
      CK6_handleInfoTile x y ncode s = CK6_handleInfoTile x y bcode s) ∧
    (CK6_handleInfoTile x y bcode s).spawns.length = s.spawns.length + 1

/-- The `{base, +Normal, +Hard}` cascades in `CK5_ScanInfoLayer`, as
`(Hard-gated, Normal-gated, base)` triples of info codes. -/
def ck5_cascades : List (Nat × Nat × Nat) :=
  [(6, 5, 4), (9, 8, 7), (12, 11, 10), (15, 14, 13), (18, 17, 16),
   (21, 20, 19), (24, 23, 22), (44, 43, 42), (53, 49, 45), (54, 50, 46),
   (55, 51, 47), (56, 52, 48), (73, 72, 71), (76, 75, 74), (79, 78, 77),
   (90, 89, 88), (101, 100, 99), (104, 103, 102), (107, 106, 105)]

/-- The `{base, +Normal, +Hard}` cascades in `CK6_ScanInfoLayer`. -/
def ck6_cascades : List (Nat × Nat × Nat) :=
  [(6, 5, 4), (20, 19, 18), (43, 42, 41), (49, 48, 47), (52, 51, 50),
   (72, 71, 70), (75, 74, 73), (78, 77, 76), (81, 80, 79), (84, 83, 82),
   (87, 86, 85), (104, 103, 102)]

/-- Generic cascade lemma: any cascade whose three codes render as the
`hardGate`/`normalGate`/body pattern, with a body doing exactly one
spawn, satisfies `CK5CascadeOK`. -/
lemma ck5_gateCascade {hcode ncode bcode : Nat}
    (body : Nat → Nat → CK5ScanState → CK5ScanState)
    (hh : ∀ x y s, CK5_handleInfoTile x y hcode s =
      hardGate s (normalGate s (body x y s)))
    (hn : ∀ x y s, CK5_handleInfoTile x y ncode s = normalGate s (body x y s))
    (hb : ∀ x y s, CK5_handleInfoTile x y bcode s = body x y s)
    (hspawn : ∀ x y s, (body x y s).spawns.length = s.spawns.length + 1) :
    CK5CascadeOK hcode ncode bcode := by
  intro x y s
  refine ⟨fun h => ?_, fun h => ?_, fun h => ?_, fun h => ?_, ?_⟩
  · rw [hh, hardGate, if_pos h]
  · rw [hh, hb, hardGate, if_neg (by omega), normalGate,
      if_neg (by unfold D_Hard at h; unfold D_Normal; omega)]
  · rw [hn, normalGate, if_pos h]
  · rw [hn, hb, normalGate, if_neg (by omega)]
  · rw [hb]; exact hspawn x y s

/-- Generic cascade lemma for CK6. -/
lemma ck6_gateCascade {hcode ncode bcode : Nat}
    (body : Nat → Nat → CK6ScanState → CK6ScanState)
    (hh : ∀ x y s, CK6_handleInfoTile x y hcode s =
      hardGate6 s (normalGate6 s (body x y s)))
    (hn : ∀ x y s, CK6_handleInfoTile x y ncode s = normalGate6 s (body x y s))
    (hb : ∀ x y s, CK6_handleInfoTile x y bcode s = body x y s)
    (hspawn : ∀ x y s, (body x y s).spawns.length = s.spawns.length + 1) :
    CK6CascadeOK hcode ncode bcode := by
  intro x y s
  refine ⟨fun h => ?_, fun h => ?_, fun h => ?_, fun h => ?_, ?_⟩
  · rw [hh, hardGate6, if_pos h]
  · rw [hh, hb, hardGate6, if_neg (by omega), normalGate6,
      if_neg (by unfold D_Hard at h; unfold D_Normal; omega)]
  · rw [hn, normalGate6, if_pos h]
  · rw [hn, hb, normalGate6, if_neg (by omega)]
  · rw [hb]; exact hspawn x y s

/-- A concrete scanner state at Normal difficulty, used to refute the
fallthrough reading of claim C1. -/
def ck5StateNormal : CK5ScanState :=
  { difficulty := D_Normal, levelState := 0, numShots := 0, currentLevel := 1,
    fusesRemaining := 0, levelsDone := [], keenPosY := 0,
    lumpsNeeded := List.replicate 34 false, graphChunkNeeded := [],
    spawns := [], scrollBlocks := [], markRequests := [], teleActions := [],
    objs := [] }

set_option maxHeartbeats 4000000 in
/-- The CK6 tile dispatch never touches the live-object list. -/
lemma CK6_handleInfoTile_objs (x y v : Nat) (s : CK6ScanState) :
    (CK6_handleInfoTile x y v s).objs = s.objs := by
  unfold CK6_handleInfoTile
  split <;>
    first
      | rfl
      | (dsimp only [hardGate6, normalGate6]; split_ifs <;> rfl)
      | (split_ifs <;> rfl)

/-! ## Claim C1 -/

/-- C1 counterexample: at Normal difficulty, scanning a tile carrying
the Hard-gated code 6 of the CK5 sparky cascade leaves the state
unchanged (no spawn at all), whereas the next eligible lower code, 5,
spawns — so the Hard-gated code does **not** produce the effect of the
next eligible lower code when the difficulty gate fails. -/
theorem C1_counterexample :
    CK5_handleInfoTile 0 0 6 ck5StateNormal = ck5StateNormal ∧
    CK5_handleInfoTile 0 0 5 ck5StateNormal ≠
      CK5_handleInfoTile 0 0 6 ck5StateNormal := by
  constructor
  · rfl
  · decide

/-- C1 (amended): for every `{base, +Normal, +Hard}` cascade of both
episodes' info-layer scanners, a difficulty-gated code whose gate fails
is a **no-op** (the `break` leaves the switch), and a gated code whose
gate passes produces exactly the base handler's effect once — one
spawn, no double-spawn. -/
theorem C1_cascade_gating :
    (∀ c ∈ ck5_cascades, CK5CascadeOK c.1 c.2.1 c.2.2) ∧
    (∀ c ∈ ck6_cascades, CK6CascadeOK c.1 c.2.1 c.2.2) := by
  constructor
  · intro c hc
    fin_cases hc <;>
      exact ck5_gateCascade _ (fun x y s => rfl) (fun x y s => rfl)
        (fun x y s => rfl)
        (fun x y s => by
          simp [ck5_sparkyBody, ck5_mineBody, ck5_sliceNorthBody, ck5_roboBody,
            ck5_spirogripBody, ck5_sliceDiagBody, ck5_sliceEastBody,
            ck5_amptonBody, ck5_turretBody, ck5_volteBody, ck5_shellyBody,
            ck5_spindredBody, ck5_masterBody, ck5_shikadiBody,
            ck5_shocksundBody, ck5_spherefulBody])
  · intro c hc
    fin_cases hc <;>
      exact ck6_gateCascade _ (fun x y s => rfl) (fun x y s => rfl)
        (fun x y s => rfl)
        (fun x y s => by
          simp [ck6_bloogBody, ck6_fleexBody, ck6_bobbaBody, ck6_nospikeBody,
            ck6_gikBody, ck6_orbatrixBody, ck6_bipshipBody, ck6_flectBody,
            ck6_blorbBody, ck6_ceilickBody, ck6_bloogguardBody,
            ck6_babobbaBody])

/-- C1 witness: the amended theorem applied to the CK5 sparky cascade
`(6, 5, 4)` at the concrete Normal-difficulty state: code 6 is a no-op
there. -/
theorem C1_cascade_gating_witness :
    CK5_handleInfoTile 0 0 6 ck5StateNormal = ck5StateNormal :=
  ((C1_cascade_gating.1 (6, 5, 4) (by decide) 0 0 ck5StateNormal).1) (by decide)

/-! ## Claim C5 -/

/-- C5: during the CK5 info-layer scan, info value 41 on level index 12
spawns the QED trigger and sets the remaining-fuse counter to exactly 4
regardless of its prior value; on any other level it increments the
counter by exactly 1 and spawns nothing; in both cases the QED-fuse
lump is marked needed. -/
theorem C5_qed_fuse (x y : Nat) (s : CK5ScanState) :
    (s.currentLevel = 12 →
      CK5_handleInfoTile x y 41 s =
        { s with fusesRemaining := 4,
                 spawns := s.spawns ++ [Spawn.qed x y],
                 lumpsNeeded := s.lumpsNeeded.set Lump5_QEDFuse true }) ∧
    (s.currentLevel ≠ 12 →
      CK5_handleInfoTile x y 41 s =
        { s with fusesRemaining := s.fusesRemaining + 1,
                 lumpsNeeded := s.lumpsNeeded.set Lump5_QEDFuse true }) := by
  have hdef : CK5_handleInfoTile x y 41 s =
      (if s.currentLevel = 12 then
        ({ s with fusesRemaining := 4 }).addSpawn (Spawn.qed x y)
      else { s with fusesRemaining := s.fusesRemaining + 1 }).setLump
        Lump5_QEDFuse := rfl
  constructor <;> intro h
  · rw [hdef, if_pos h]; rfl
  · rw [hdef, if_neg h]; rfl

/-- A concrete state on level 12 with a nonzero prior fuse counter. -/
def ck5StateLevel12 : CK5ScanState :=
  { difficulty := D_Easy, levelState := 0, numShots := 0, currentLevel := 12,
    fusesRemaining := 7, levelsDone := [], keenPosY := 0,
    lumpsNeeded := List.replicate 34 false, graphChunkNeeded := [],
    spawns := [], scrollBlocks := [], markRequests := [], teleActions := [],
    objs := [] }

/-- C5 witness: on level 12 a prior counter of 7 is reset to 4 and the
QED trigger is spawned. -/
theorem C5_qed_fuse_witness :
    CK5_handleInfoTile 3 4 41 ck5StateLevel12 =
      { ck5StateLevel12 with
          fusesRemaining := 4,
          spawns := [Spawn.qed 3 4],
          lumpsNeeded := (List.replicate 34 false).set Lump5_QEDFuse true } :=
  (C5_qed_fuse 3 4 ck5StateLevel12).1 rfl

/-! ## Claim C2 -/

/-- A star at the right edge: its next x position, `40000 + 2000 =
42000`, exceeds `320 * 0x80 = 40960`. -/
def starAtEdge : Star := { x := 40000, dx := 2000, y := 100, dy := 0 }

/-- C2 counterexample: when the next position exceeds the screen bound
the star's coordinates are indeed left unchanged, but the star is
**not** plotted on that step — the `continue` skips `VH_Plot`, so no
pixel is emitted at its last valid position (and the frame buffer was
just blanked). -/
theorem C2_counterexample :
    (CK_GalExplodeStarStep starAtEdge).1 = starAtEdge ∧
    (CK_GalExplodeStarStep starAtEdge).2 = none := by
  constructor <;> decide

/-- C2 (amended): a star whose next x position exceeds `320*0x80` keeps
both coordinates and is not plotted, on that step and on every
subsequent frame; a star whose x stays in bounds but whose next y
position exceeds `200*0x80` still has its x updated, keeps its y, and
is not plotted; otherwise both coordinates update and the star is
plotted at its new position. -/
theorem C2_star_clipping (s : Star) :
    (320 * 0x80 < uint16add s.x s.dx →
      CK_GalExplodeStarStep s = (s, none) ∧
      ∀ n, CK_GalExplodeStarIter n s = s) ∧
    (uint16add s.x s.dx ≤ 320 * 0x80 → 200 * 0x80 < uint16add s.y s.dy →
      CK_GalExplodeStarStep s = ({ s with x := uint16add s.x s.dx }, none)) ∧
    (uint16add s.x s.dx ≤ 320 * 0x80 → uint16add s.y s.dy ≤ 200 * 0x80 →
      CK_GalExplodeStarStep s =
        ({ s with x := uint16add s.x s.dx, y := uint16add s.y s.dy },
         some ((uint16add s.x s.dx) / 0x80, (uint16add s.y s.dy) / 0x80))) := by
  refine ⟨fun h => ⟨?_, ?_⟩, fun h1 h2 => ?_, fun h1 h2 => ?_⟩
  · unfold CK_GalExplodeStarStep
    rw [if_pos h]
  · have hstep : CK_GalExplodeStarStep s = (s, none) := by
      unfold CK_GalExplodeStarStep
      rw [if_pos h]
    intro n
    induction n with
    | zero => rfl
    | succ n ih =>
      show CK_GalExplodeStarIter n (CK_GalExplodeStarStep s).1 = s
      rw [hstep]
      exact ih
  · unfold CK_GalExplodeStarStep
    rw [if_neg (by omega), if_pos h2]
  · unfold CK_GalExplodeStarStep
    rw [if_neg (by omega), if_neg (by omega)]

/-- C2 witness: the amended theorem applied to the edge star — frozen
and unplotted forever (frame 5 shown). -/
theorem C2_star_clipping_witness :
    CK_GalExplodeStarStep starAtEdge = (starAtEdge, none) ∧
    CK_GalExplodeStarIter 5 starAtEdge = starAtEdge :=
  ⟨((C2_star_clipping starAtEdge).1 (by decide)).1,
   ((C2_star_clipping starAtEdge).1 (by decide)).2 5⟩

/-! ## Claim C3 -/

/-- A file environment in which the three user-provided CK6 files exist
but no omnispeak-provided file does. -/
def envUserOnly : FSEnv :=
  { keenFiles := fun f =>
      f == "EGAGRAPH.CK6" || f == "GAMEMAPS.CK6" || f == "AUDIO.CK6",
    omniFiles := fun _ => false,
    egaGraphSize := 0 }

/-- C3 counterexample: with `EGAHEAD.CK6` (an engine-provided file)
absent, `CK6_IsPresent` reports "not present" — but it has already
mutated the `ck6_episode` global, which it set right after the three
user-file checks. -/
theorem C3_counterexample :
    (CK6_IsPresent envUserOnly none).1 = false ∧
    (CK6_IsPresent envUserOnly none).2 ≠ none := by
  constructor <;> decide

/-- The early-return file check agrees with `List.all`. -/
lemma FS_filesPresent_eq_all (present : String → Bool) (fs : List String) :
    FS_filesPresent present fs = fs.all present := by
  induction fs with
  | nil => rfl
  | cons f rest ih =>
    unfold FS_filesPresent
    cases h : present f <;> simp [h, ih]

lemma CK5_IsPresent_snd (env : FSEnv) (ep : Option CK6Version) :
    (CK5_IsPresent env ep).2 = ep := by
  unfold CK5_IsPresent
  split_ifs <;> rfl

lemma CK5_IsPresent_fst (env : FSEnv) (ep : Option CK6Version) :
    (CK5_IsPresent env ep).1 =
      (ck5_userFiles.all (FS_IsKeenFilePresent env) &&
        ck5_omniFiles.all (FS_IsOmniFilePresent env)) := by
  unfold CK5_IsPresent
  rw [FS_filesPresent_eq_all, FS_filesPresent_eq_all]
  split_ifs <;> simp_all

lemma CK6_IsPresent_fst (env : FSEnv) (ep : Option CK6Version) :
    (CK6_IsPresent env ep).1 =
      (ck6_userFiles.all (FS_IsKeenFilePresent env) &&
        ck6_omniFiles.all (FS_IsOmniFilePresent env)) := by
  unfold CK6_IsPresent
  rw [FS_filesPresent_eq_all, FS_filesPresent_eq_all]
  split_ifs <;> simp_all

lemma CK6_IsPresent_snd_missing (env : FSEnv) (ep : Option CK6Version)
    (hu : ¬ck6_userFiles.all (FS_IsKeenFilePresent env) = true) :
    (CK6_IsPresent env ep).2 = ep := by
  unfold CK6_IsPresent
  rw [FS_filesPresent_eq_all]
  split_ifs <;> simp_all

lemma CK6_IsPresent_snd_set (env : FSEnv) (ep : Option CK6Version)
    (hu : ck6_userFiles.all (FS_IsKeenFilePresent env) = true) :
    (CK6_IsPresent env ep).2 =
      some (if env.egaGraphSize = 464662 then CK6Version.v15e
            else CK6Version.v14e) := by
  unfold CK6_IsPresent
  simp only [FS_filesPresent_eq_all]
  simp only [hu, Bool.not_true, Bool.false_eq_true, if_false]
  split_ifs <;> rfl

/-- C3 (amended): `CK5_IsPresent` never mutates state and returns true
exactly when all its required files are present.  `CK6_IsPresent`
returns true exactly when all its required files are present, and does
not mutate state when one of the three user-provided files is missing;
but once those three are present it sets the `ck6_episode`
version-selection global from the size of `EGAGRAPH.CK6` **before**
checking the engine-provided files, so a failure there still leaves the
global mutated. -/
theorem C3_presence_checks (env : FSEnv) (ep : Option CK6Version) :
    (CK5_IsPresent env ep).2 = ep ∧
    (CK5_IsPresent env ep).1 =
      (ck5_userFiles.all (FS_IsKeenFilePresent env) &&
        ck5_omniFiles.all (FS_IsOmniFilePresent env)) ∧
    (CK6_IsPresent env ep).1 =
      (ck6_userFiles.all (FS_IsKeenFilePresent env) &&
        ck6_omniFiles.all (FS_IsOmniFilePresent env)) ∧
    (¬ck6_userFiles.all (FS_IsKeenFilePresent env) = true →
      (CK6_IsPresent env ep).2 = ep) ∧
    (ck6_userFiles.all (FS_IsKeenFilePresent env) = true →
      (CK6_IsPresent env ep).2 =
        some (if env.egaGraphSize = 464662 then CK6Version.v15e
              else CK6Version.v14e)) :=
  ⟨CK5_IsPresent_snd env ep, CK5_IsPresent_fst env ep,
   CK6_IsPresent_fst env ep, CK6_IsPresent_snd_missing env ep,
   CK6_IsPresent_snd_set env ep⟩

/-- C3 witness: the amended theorem at the concrete user-files-only
environment: the check fails yet the global ends up set. -/
theorem C3_presence_checks_witness :
    (CK6_IsPresent envUserOnly none).2 = some CK6Version.v14e :=
  (C3_presence_checks envUserOnly none).2.2.2.2 (by decide)

/-! ## Claim C9 -/

/-- C9: the routing-info scan of `CK6_ToggleBigSwitch` advances one
tile at a time; whenever some tile at or after the start carries a
non-zero info value, the loop terminates (any fuel beyond the first hit
suffices) and selects exactly the first such tile: every earlier tile
is zero. -/
theorem C9_info_scan (info : Nat → Nat) (k0 : Nat)
    (h : ∃ d, info (k0 + d) ≠ 0) :
    CK6_ScanForInfoTile info k0 (Nat.find h + 1) = some (k0 + Nat.find h) ∧
    info (k0 + Nat.find h) ≠ 0 ∧
    ∀ j, j < Nat.find h → info (k0 + j) = 0 := by
  have hhit : info (k0 + Nat.find h) ≠ 0 := Nat.find_spec h
  have hbefore : ∀ j, j < Nat.find h → info (k0 + j) = 0 := by
    intro j hj
    have := Nat.find_min h hj
    simpa using this
  refine ⟨?_, hhit, hbefore⟩
  have aux : ∀ (n k : Nat), (∀ j, j < n → info (k + j) = 0) →
      info (k + n) ≠ 0 →
      CK6_ScanForInfoTile info k (n + 1) = some (k + n) := by
    intro n
    induction n with
    | zero =>
      intro k _ hk
      unfold CK6_ScanForInfoTile
      rw [if_pos (by simpa using hk)]
      rfl
    | succ n ih =>
      intro k hz hk
      have h0 : info k = 0 := by simpa using hz 0 (Nat.succ_pos n)
      show CK6_ScanForInfoTile info k (n + 1 + 1) = some (k + (n + 1))
      unfold CK6_ScanForInfoTile
      rw [if_neg (by simpa using h0)]
      have := ih (k + 1) (fun j hj => by
          have := hz (j + 1) (by omega)
          simpa [Nat.add_assoc, Nat.add_comm 1 j] using this)
        (by
          have : k + 1 + n = k + (n + 1) := by omega
          rw [this]; exact hk)
      rw [this]
      congr 1
      omega
  exact aux (Nat.find h) k0 hbefore hhit

/-- A concrete info sequence with its first non-zero value at offset 3. -/
def infoSeqEx : Nat → Nat := fun k => if k = 5 then 7 else 0

/-- The routing invariant holds of `infoSeqEx` starting at index 2. -/
def infoSeqEx_hit : ∃ d, infoSeqEx (2 + d) ≠ 0 := ⟨3, by decide⟩

/-- C9 witness: the scan from index 2 finds index 5 with fuel 4. -/
theorem C9_info_scan_witness :
    CK6_ScanForInfoTile infoSeqEx 2 (Nat.find infoSeqEx_hit + 1) =
      some (2 + Nat.find infoSeqEx_hit) ∧
    infoSeqEx (2 + Nat.find infoSeqEx_hit) ≠ 0 :=
  ⟨(C9_info_scan infoSeqEx 2 infoSeqEx_hit).1,
   (C9_info_scan infoSeqEx 2 infoSeqEx_hit).2.1⟩

/-! ## Claim C10 -/

/-- C10: `CK5_SpawnEnemyShot` returns `NULL` without mutating the pool
when it is exhausted; when a slot is acquired but the placed shot is
stuck in a wall, the object is released and `NULL` returned, leaving
the pool exactly as before (no new live object); otherwise it returns a
live object tagged `CT5_EnemyShot` in the `OBJ_EXISTS_ONLY_ONSCREEN`
activity state, at the requested position. -/
theorem C10_spawn_enemy_shot (p : ObjPool) (posX posY : Int)
    (notStuckInWall : CKObj → Bool) :
    (p.free = [] → CK5_SpawnEnemyShot p posX posY notStuckInWall = (p, none)) ∧
    (∀ i rest, p.free = i :: rest → (∀ q ∈ p.live, q.id ≠ i) →
      (notStuckInWall ⟨i, CT5_EnemyShot, ObjActive.existsOnscreen, posX, posY⟩ =
            false →
        CK5_SpawnEnemyShot p posX posY notStuckInWall = (p, none)) ∧
      (notStuckInWall ⟨i, CT5_EnemyShot, ObjActive.existsOnscreen, posX, posY⟩ =
            true →
        ∃ o, CK5_SpawnEnemyShot p posX posY notStuckInWall =
            (⟨rest, p.live ++ [o]⟩, some o) ∧
          o.type = CT5_EnemyShot ∧ o.active = ObjActive.existsOnscreen ∧
          o.posX = posX ∧ o.posY = posY)) := by
  constructor
  · intro hfree
    unfold CK5_SpawnEnemyShot CK_GetNewObj
    rw [hfree]
  · intro i rest hfree hfresh
    constructor
    · intro hstuck
      unfold CK5_SpawnEnemyShot CK_GetNewObj
      rw [hfree]
      simp only [hstuck, Bool.false_eq_true, if_false]
      unfold CK_RemoveObj
      have hlive : (p.live ++
          [(⟨i, CT5_EnemyShot, ObjActive.existsOnscreen, posX, posY⟩ :
            CKObj)]).filter (fun q => q.id ≠ i) = p.live := by
        rw [List.filter_append]
        have h1 : p.live.filter (fun q => decide (q.id ≠ i)) = p.live :=
          List.filter_eq_self.mpr (fun q hq => by
            simpa using hfresh q hq)
        have h2 : ([(⟨i, CT5_EnemyShot, ObjActive.existsOnscreen, posX, posY⟩ :
            CKObj)]).filter (fun q => decide (q.id ≠ i)) = [] := by simp
        rw [h1, h2, List.append_nil]
      simp only [hlive]
      rw [← hfree]
    · intro hok
      refine ⟨⟨i, CT5_EnemyShot, ObjActive.existsOnscreen, posX, posY⟩,
        ?_, rfl, rfl, rfl, rfl⟩
      unfold CK5_SpawnEnemyShot CK_GetNewObj
      rw [hfree]
      simp only [hok, if_true]

/-- A concrete pool with one free slot and one live object. -/
def poolEx : ObjPool :=
  ⟨[2], [⟨1, 0, ObjActive.alwaysActive, 0, 0⟩]⟩

/-- C10 witness: spawning from `poolEx` with a wall-free placement
yields a live enemy shot in the exists-only-onscreen state. -/
theorem C10_spawn_enemy_shot_witness :
    ∃ o, CK5_SpawnEnemyShot poolEx 7 9 (fun _ => true) =
        (⟨[], poolEx.live ++ [o]⟩, some o) ∧
      o.type = CT5_EnemyShot ∧ o.active = ObjActive.existsOnscreen ∧
      o.posX = 7 ∧ o.posY = 9 := by
  have h := (C10_spawn_enemy_shot poolEx 7 9 (fun _ => true)).2 2 []
    rfl (by decide)
  exact h.2 rfl

/-! ## Claims C7 and C4: scan-level lemmas -/

/-- Unconditional description of `getElem?` after `set`. -/
lemma getElem?_set_if {β : Type _} (l : List β) (i j : Nat) (b : β) :
    (l.set i b)[j]? =
      if i = j ∧ i < l.length then some b else l[j]? := by
  by_cases h : i = j
  · subst h
    by_cases hl : i < l.length
    · simp [List.getElem?_set_self, hl]
    · rw [List.set_eq_of_length_le (by omega)]
      simp [hl]
  · rw [List.getElem?_set_ne h]
    simp [h]

set_option maxHeartbeats 4000000 in
/-- The CK5 tile dispatch never sets the needed flag of lump category
0, the only category with chunk range `(0,0)`. -/
lemma CK5_handleInfoTile_lump0 (x y v : Nat) (s : CK5ScanState) (j : Nat)
    (hj : j = 0) :
    (CK5_handleInfoTile x y v s).lumpsNeeded.getD j false =
      s.lumpsNeeded.getD j false := by
  unfold CK5_handleInfoTile
  split <;>
    first
      | rfl
      | (dsimp only [hardGate, normalGate]; split_ifs <;>
          first
            | rfl
            | (simp [ck5_sparkyBody, ck5_mineBody, ck5_sliceNorthBody,
                ck5_roboBody, ck5_spirogripBody, ck5_sliceDiagBody,
                ck5_sliceEastBody, ck5_standPlatBody, ck5_amptonBody,
                ck5_turretBody, ck5_itemBody, ck5_volteBody, ck5_shellyBody,
                ck5_spindredBody, ck5_masterBody, ck5_shikadiBody,
                ck5_shocksundBody, ck5_spherefulBody, ck5_itemLumps,
                CK5ScanState.setLump, CK5ScanState.addSpawn,
                CK5ScanState.markChunk, getElem?_set_if, Lump5_Keen,
                Lump5_Gems, Lump5_Stunner, Lump5_PinkShot, Lump5_MapKeen,
                Lump5_ShikadiMaster, Lump5_Shikadi, Lump5_Shocksund,
                Lump5_Sphereful, Lump5_Sparky, Lump5_Mine, Lump5_Slicestar,
                Lump5_RoboRed, Lump5_Spirogrip, Lump5_Ampton, Lump5_VolteFace,
                Lump5_PurplePlat, Lump5_Spindred, Lump5_Shelley, Lump5_RedPlat,
                Lump5_Keycard, Lump5_Korath, Lump5_QEDFuse, Lump5_Teleporter] <;>
               split_ifs <;> first | rfl | omega))
      | (split_ifs <;>
          first
            | rfl
            | (simp [ck5_standPlatBody, ck5_itemBody, ck5_itemLumps,
                CK5ScanState.setLump, CK5ScanState.addSpawn,
                getElem?_set_if, Lump5_Gems, Lump5_Stunner, Lump5_RedPlat,
                Lump5_QEDFuse] <;>
               split_ifs <;> first | rfl | omega))
      | (simp [ck5_sparkyBody, ck5_mineBody, ck5_sliceNorthBody, ck5_roboBody,
          ck5_spirogripBody, ck5_sliceDiagBody, ck5_sliceEastBody,
          ck5_standPlatBody, ck5_amptonBody, ck5_turretBody, ck5_itemBody,
          ck5_volteBody, ck5_shellyBody, ck5_spindredBody, ck5_masterBody,
          ck5_shikadiBody, ck5_shocksundBody, ck5_spherefulBody,
          ck5_itemLumps, CK5ScanState.setLump, CK5ScanState.addSpawn,
          CK5ScanState.markChunk, getElem?_set_if, Lump5_Keen, Lump5_Gems,
          Lump5_Stunner, Lump5_PinkShot, Lump5_MapKeen, Lump5_ShikadiMaster,
          Lump5_Shikadi, Lump5_Shocksund, Lump5_Sphereful, Lump5_Sparky,
          Lump5_Mine, Lump5_Slicestar, Lump5_RoboRed, Lump5_Spirogrip,
          Lump5_Ampton, Lump5_VolteFace, Lump5_PurplePlat, Lump5_Spindred,
          Lump5_Shelley, Lump5_RedPlat, Lump5_Keycard, Lump5_Korath,
          Lump5_QEDFuse, Lump5_Teleporter] <;>
         split_ifs <;> first | rfl | omega)

set_option maxHeartbeats 4000000 in
/-- The CK6 tile dispatch never sets the needed flag of the lump
categories with chunk range `(0,0)` (indices 12, 37, 38 and 39). -/
lemma CK6_handleInfoTile_lumpZeros (x y v : Nat) (s : CK6ScanState) (j : Nat)
    (hj : j = 12 ∨ j = 37 ∨ j = 38 ∨ j = 39) :
    (CK6_handleInfoTile x y v s).lumpsNeeded.getD j false =
      s.lumpsNeeded.getD j false := by
  unfold CK6_handleInfoTile
  split <;>
    first
      | rfl
      | (dsimp only [hardGate6, normalGate6]; split_ifs <;>
          first
            | rfl
            | (simp [ck6_bloogBody, ck6_fleexBody, ck6_standPlatBody6,
                ck6_bobbaBody, ck6_nospikeBody, ck6_gikBody, ck6_itemBody,
                ck6_orbatrixBody, ck6_bipshipBody, ck6_flectBody,
                ck6_blorbBody, ck6_ceilickBody, ck6_bloogguardBody,
                ck6_babobbaBody, ck6_itemLumps, CK6ScanState.setLump,
                CK6ScanState.addSpawn, CK6ScanState.markChunk,
                getElem?_set_if, Lump6_Keen, Lump6_100Pts, Lump6_200Pts,
                Lump6_500Pts, Lump6_1000Pts, Lump6_2000Pts, Lump6_5000Pts,
                Lump6_1UP, Lump6_Gems, Lump6_Stunner, Lump6_Mapkeen,
                Lump6_Bloog, Lump6_BloogletR, Lump6_Platform, Lump6_Gik,
                Lump6_Blorb, Lump6_Bobba, Lump6_Babobba, Lump6_Bloogguard,
                Lump6_Flect, Lump6_Bip, Lump6_PlatBip, Lump6_Bipship,
                Lump6_Nospike, Lump6_Orbatrix, Lump6_Ceilick, Lump6_Fleex,
                Lump6_Rope, Lump6_Sandwich, Lump6_Turret, Lump6_Passcard,
                Lump6_Molly] <;>
               split_ifs <;> first | rfl | omega))
      | (split_ifs <;>
          first
            | rfl
            | (simp [ck6_standPlatBody6, ck6_itemBody, ck6_itemLumps,
                CK6ScanState.setLump, CK6ScanState.addSpawn,
                getElem?_set_if, Lump6_100Pts, Lump6_200Pts, Lump6_500Pts,
                Lump6_1000Pts, Lump6_2000Pts, Lump6_5000Pts, Lump6_1UP,
                Lump6_Gems, Lump6_Stunner, Lump6_Platform] <;>
               split_ifs <;> first | rfl | omega))
      | (simp [ck6_bloogBody, ck6_fleexBody, ck6_standPlatBody6,
          ck6_bobbaBody, ck6_nospikeBody, ck6_gikBody, ck6_itemBody,
          ck6_orbatrixBody, ck6_bipshipBody, ck6_flectBody, ck6_blorbBody,
          ck6_ceilickBody, ck6_bloogguardBody, ck6_babobbaBody,
          ck6_itemLumps, CK6ScanState.setLump, CK6ScanState.addSpawn,
          CK6ScanState.markChunk, getElem?_set_if, Lump6_Keen, Lump6_100Pts,
          Lump6_200Pts, Lump6_500Pts, Lump6_1000Pts, Lump6_2000Pts,
          Lump6_5000Pts, Lump6_1UP, Lump6_Gems, Lump6_Stunner, Lump6_Mapkeen,
          Lump6_Bloog, Lump6_BloogletR, Lump6_Platform, Lump6_Gik,
          Lump6_Blorb, Lump6_Bobba, Lump6_Babobba, Lump6_Bloogguard,
          Lump6_Flect, Lump6_Bip, Lump6_PlatBip, Lump6_Bipship,
          Lump6_Nospike, Lump6_Orbatrix, Lump6_Ceilick, Lump6_Fleex,
          Lump6_Rope, Lump6_Sandwich, Lump6_Turret, Lump6_Passcard,
          Lump6_Molly] <;>
         split_ifs <;> first | rfl | omega)

/-- The level-0 teleporter block only appends teleporter actions. -/
lemma CK5_level0Teleporters_objs (s : CK5ScanState) :
    (CK5_level0Teleporters s).objs = s.objs := by
  unfold CK5_level0Teleporters
  dsimp only
  split_ifs <;> rfl

lemma CK5_level0Teleporters_lumpsNeeded (s : CK5ScanState) :
    (CK5_level0Teleporters s).lumpsNeeded = s.lumpsNeeded := by
  unfold CK5_level0Teleporters
  dsimp only
  split_ifs <;> rfl

/-- The tile loop leaves the live-object list untouched. -/
lemma CK5_tileFold_objs (m : MapInput) (s : CK5ScanState) :
    (CK5_tileFold m s).objs = s.objs := by
  unfold CK5_tileFold
  refine foldl_invariant _ (fun t : CK5ScanState => t.objs = s.objs) ?_ _ _ rfl
  intro t y ht
  refine foldl_invariant _ (fun t : CK5ScanState => t.objs = s.objs) ?_ _ _ ht
  intro u x hu
  rw [CK5_handleInfoTile_objs]
  exact hu

lemma CK6_tileFold_objs (m : MapInput) (s : CK6ScanState) :
    (CK6_tileFold m s).objs = s.objs := by
  unfold CK6_tileFold
  refine foldl_invariant _ (fun t : CK6ScanState => t.objs = s.objs) ?_ _ _ rfl
  intro t y ht
  refine foldl_invariant _ (fun t : CK6ScanState => t.objs = s.objs) ?_ _ _ ht
  intro u x hu
  rw [CK6_handleInfoTile_objs]
  exact hu

/-- After `CK5_ScanInfoLayer`, the live-object list is exactly the
input list through the deactivation pass. -/
lemma CK5_ScanInfoLayer_objs (m : MapInput) (s0 : CK5ScanState) :
    (CK5_ScanInfoLayer m s0).objs = CK_DeactivateObjs s0.objs := by
  unfold CK5_ScanInfoLayer
  rw [CK5_level0Teleporters_objs]
  show CK_DeactivateObjs (CK5_tileFold m { s0 with fusesRemaining := 0 }).objs =
    CK_DeactivateObjs s0.objs
  rw [CK5_tileFold_objs]

lemma CK6_ScanInfoLayer_objs (m : MapInput) (s0 : CK6ScanState) :
    (CK6_ScanInfoLayer m s0).objs = CK_DeactivateObjs s0.objs := by
  unfold CK6_ScanInfoLayer
  show CK_DeactivateObjs (CK6_tileFold m s0).objs = CK_DeactivateObjs s0.objs
  rw [CK6_tileFold_objs]

/-! ## Claim C7 -/

/-- C7: after the info-layer scan completes (either episode), every
object in the live-object list whose activity state is not
always-active is inactive, and every always-active object is carried
over unchanged. -/
theorem C7_deactivation (m5 m6 : MapInput) (s5 : CK5ScanState)
    (s6 : CK6ScanState) :
    (∀ o ∈ (CK5_ScanInfoLayer m5 s5).objs,
      o.active ≠ ObjActive.alwaysActive → o.active = ObjActive.inactive) ∧
    (∀ o ∈ s5.objs, o.active = ObjActive.alwaysActive →
      o ∈ (CK5_ScanInfoLayer m5 s5).objs) ∧
    (∀ o ∈ (CK6_ScanInfoLayer m6 s6).objs,
      o.active ≠ ObjActive.alwaysActive → o.active = ObjActive.inactive) ∧
    (∀ o ∈ s6.objs, o.active = ObjActive.alwaysActive →
      o ∈ (CK6_ScanInfoLayer m6 s6).objs) := by
  have hfwd : ∀ (l : List CKObj), ∀ o ∈ CK_DeactivateObjs l,
      o.active ≠ ObjActive.alwaysActive → o.active = ObjActive.inactive := by
    intro l o ho hne
    obtain ⟨q, hq, rfl⟩ := List.mem_map.mp ho
    by_cases h : q.active = ObjActive.alwaysActive
    · exfalso
      apply hne
      unfold CK_DeactivateObj
      rw [if_neg (not_not_intro h)]
      exact h
    · unfold CK_DeactivateObj
      rw [if_pos h]
  have hkeep : ∀ (l : List CKObj), ∀ o ∈ l,
      o.active = ObjActive.alwaysActive → o ∈ CK_DeactivateObjs l := by
    intro l o ho ha
    apply List.mem_map.mpr
    refine ⟨o, ho, ?_⟩
    unfold CK_DeactivateObj
    rw [if_neg (by simp [ha])]
  refine ⟨?_, ?_, ?_, ?_⟩
  · rw [CK5_ScanInfoLayer_objs]; exact hfwd s5.objs
  · intro o ho ha
    rw [CK5_ScanInfoLayer_objs]
    exact hkeep s5.objs o ho ha
  · rw [CK6_ScanInfoLayer_objs]; exact hfwd s6.objs
  · intro o ho ha
    rw [CK6_ScanInfoLayer_objs]
    exact hkeep s6.objs o ho ha

/-- A map whose info plane is all zero. -/
def emptyMap : MapInput := { mapW := 1, mapH := 1, info := fun _ _ => 0 }

/-- A CK6 scanner state holding one active-onscreen object and one
always-active object. -/
def ck6StateObjs : CK6ScanState :=
  { difficulty := D_Easy, numShots := 0, currentLevel := 3,
    lumpsNeeded := List.replicate 40 false, graphChunkNeeded := [],
    spawns := [], scrollBlocks := [], cacheRequests := [],
    objs := [⟨0, 5, ObjActive.activeOnscreen, 0, 0⟩,
             ⟨1, 6, ObjActive.alwaysActive, 2, 2⟩] }

/-- C7 witness: after a CK6 scan of the empty map, the active-onscreen
object has been forced inactive and the always-active object kept. -/
theorem C7_deactivation_witness :
    ((⟨0, 5, ObjActive.inactive, 0, 0⟩ : CKObj) ∈
        (CK6_ScanInfoLayer emptyMap ck6StateObjs).objs →
      (⟨0, 5, ObjActive.inactive, 0, 0⟩ : CKObj).active =
        ObjActive.inactive) ∧
    (⟨1, 6, ObjActive.alwaysActive, 2, 2⟩ : CKObj) ∈
      (CK6_ScanInfoLayer emptyMap ck6StateObjs).objs :=
  ⟨fun hmem =>
    (C7_deactivation emptyMap emptyMap ck5StateNormal ck6StateObjs).2.2.1
      ⟨0, 5, ObjActive.inactive, 0, 0⟩ hmem (by decide),
   (C7_deactivation emptyMap emptyMap ck5StateNormal ck6StateObjs).2.2.2
      ⟨1, 6, ObjActive.alwaysActive, 2, 2⟩ (by decide) rfl⟩

/-! ## Claim C4 -/

/-- The CK5 tile loop preserves an unset category-0 flag. -/
lemma CK5_tileFold_lump0 (m : MapInput) (s : CK5ScanState)
    (h : s.lumpsNeeded.getD 0 false = false) :
    (CK5_tileFold m s).lumpsNeeded.getD 0 false = false := by
  unfold CK5_tileFold
  refine foldl_invariant _
    (fun t : CK5ScanState => t.lumpsNeeded.getD 0 false = false) ?_ _ _ h
  intro t y ht
  refine foldl_invariant _
    (fun t : CK5ScanState => t.lumpsNeeded.getD 0 false = false) ?_ _ _ ht
  intro u x hu
  rw [CK5_handleInfoTile_lump0 _ _ _ _ _ rfl]
  exact hu

/-- The CK6 tile loop preserves unset zero-range-category flags. -/
lemma CK6_tileFold_lumpZeros (m : MapInput) (s : CK6ScanState) (j : Nat)
    (hj : j = 12 ∨ j = 37 ∨ j = 38 ∨ j = 39)
    (h : s.lumpsNeeded.getD j false = false) :
    (CK6_tileFold m s).lumpsNeeded.getD j false = false := by
  unfold CK6_tileFold
  refine foldl_invariant _
    (fun t : CK6ScanState => t.lumpsNeeded.getD j false = false) ?_ _ _ h
  intro t y ht
  refine foldl_invariant _
    (fun t : CK6ScanState => t.lumpsNeeded.getD j false = false) ?_ _ _ ht
  intro u x hu
  rw [CK6_handleInfoTile_lumpZeros _ _ _ _ _ hj]
  exact hu

/-- The lump flags after a CK5 scan are the flags after its tile loop. -/
lemma CK5_ScanInfoLayer_lumpsNeeded (m : MapInput) (s0 : CK5ScanState) :
    (CK5_ScanInfoLayer m s0).lumpsNeeded =
      (CK5_tileFold m { s0 with fusesRemaining := 0 }).lumpsNeeded := by
  unfold CK5_ScanInfoLayer
  rw [CK5_level0Teleporters_lumpsNeeded]

/-- The lump flags after a CK6 scan are the flags after its tile loop. -/
lemma CK6_ScanInfoLayer_lumpsNeeded (m : MapInput) (s0 : CK6ScanState) :
    (CK6_ScanInfoLayer m s0).lumpsNeeded = (CK6_tileFold m s0).lumpsNeeded :=
  rfl

/-- Chunk 0 appears in no CK5 category's range except category 0's. -/
lemma ck5_chunk0_only_cat0 :
    ∀ i, i < CK5_MAXLUMPS → i ≠ 0 → ¬0 ∈ ck5_chunkRange i := by decide

/-- Chunk 0 appears in no CK6 category's range except the `(0,0)`
categories 12, 37, 38, 39. -/
lemma ck6_chunk0_only_zeroCats :
    ∀ i, i < CK6_MAXLUMPS →
      ¬(i = 12 ∨ i = 37 ∨ i = 38 ∨ i = 39) → ¬0 ∈ ck6_chunkRange i := by
  decide

/-- If category 0's flag is unset, the CK5 batch pass never requests
chunk 0. -/
lemma ck5_batchMarks_no_zero (needed : List Bool)
    (h : needed.getD 0 false = false) : ¬0 ∈ ck5_batchMarks needed := by
  intro hmem
  rw [ck5_batchMarks, List.mem_flatMap] at hmem
  obtain ⟨i, hi, hmem⟩ := hmem
  have hi34 : i < CK5_MAXLUMPS := List.mem_range.mp hi
  by_cases h0 : i = 0
  · subst h0
    rw [h] at hmem
    simp at hmem
  · rcases hflag : needed.getD i false with _ | _
    · rw [hflag] at hmem
      simp at hmem
    · rw [hflag] at hmem
      simp only [if_true] at hmem
      exact ck5_chunk0_only_cat0 i hi34 h0 hmem

/-- If the zero-range categories' flags are unset, the CK6 batch pass
never requests chunk 0. -/
lemma ck6_batchCaches_no_zero (needed : List Bool)
    (h : ∀ j, (j = 12 ∨ j = 37 ∨ j = 38 ∨ j = 39) →
      needed.getD j false = false) : ¬0 ∈ ck6_batchCaches needed := by
  intro hmem
  rw [ck6_batchCaches, List.mem_flatMap] at hmem
  obtain ⟨i, hi, hmem⟩ := hmem
  have hi40 : i < CK6_MAXLUMPS := List.mem_range.mp hi
  by_cases h0 : i = 12 ∨ i = 37 ∨ i = 38 ∨ i = 39
  · rw [h i h0] at hmem
    simp at hmem
  · rcases hflag : needed.getD i false with _ | _
    · rw [hflag] at hmem
      simp at hmem
    · rw [hflag] at hmem
      simp only [if_true] at hmem
      exact ck6_chunk0_only_zeroCats i hi40 h0 hmem

/-- C4 counterexample: category 0 of the CK5 lump tables has chunk
range `(start = 0, end = 0)`, yet if its needed flag *were* set, the
batch pass would issue exactly one chunk-mark request — for chunk 0 —
because the `for (j = starts[i]; j <= ends[i]; j++)` loop is inclusive.
So "never ... regardless of whether the category's needed flag was set"
fails; what protects chunk 0 is that the scan never sets that flag. -/
theorem C4_counterexample :
    ck5_lumpStarts.getD 0 0 = 0 ∧ ck5_lumpEnds.getD 0 0 = 0 ∧
    ck5_batchMarks ((List.replicate 34 false).set 0 true) = [0] := by
  refine ⟨rfl, rfl, ?_⟩
  decide

/-- C4 (amended): the info-layer scan never sets the needed flag of a
lump category whose chunk range is `(0,0)`, so after any scan the batch
pass issues no request for such a category — in particular chunk 0 is
never requested.  (Had such a flag been set by other means, the
inclusive batch loop *would* request chunk 0 once.) -/
theorem C4_zero_range_categories (m5 m6 : MapInput) (s5 : CK5ScanState)
    (s6 : CK6ScanState) (h5 : s5.lumpsNeeded.getD 0 false = false)
    (h6 : ∀ j, (j = 12 ∨ j = 37 ∨ j = 38 ∨ j = 39) →
      s6.lumpsNeeded.getD j false = false) :
    ((CK5_ScanInfoLayer m5 s5).lumpsNeeded.getD 0 false = false ∧
      (if (CK5_ScanInfoLayer m5 s5).lumpsNeeded.getD 0 false then
        ck5_chunkRange 0 else []) = [] ∧
      ¬0 ∈ ck5_batchMarks (CK5_ScanInfoLayer m5 s5).lumpsNeeded) ∧
    ((∀ j, (j = 12 ∨ j = 37 ∨ j = 38 ∨ j = 39) →
        (CK6_ScanInfoLayer m6 s6).lumpsNeeded.getD j false = false ∧
        (if (CK6_ScanInfoLayer m6 s6).lumpsNeeded.getD j false then
          ck6_chunkRange j else []) = []) ∧
      ¬0 ∈ ck6_batchCaches (CK6_ScanInfoLayer m6 s6).lumpsNeeded) := by
  have k5 : (CK5_ScanInfoLayer m5 s5).lumpsNeeded.getD 0 false = false := by
    rw [CK5_ScanInfoLayer_lumpsNeeded]
    exact CK5_tileFold_lump0 m5 _ h5
  have k6 : ∀ j, (j = 12 ∨ j = 37 ∨ j = 38 ∨ j = 39) →
      (CK6_ScanInfoLayer m6 s6).lumpsNeeded.getD j false = false := by
    intro j hj
    rw [CK6_ScanInfoLayer_lumpsNeeded]
    exact CK6_tileFold_lumpZeros m6 _ j hj (h6 j hj)
  refine ⟨⟨k5, by rw [k5]; rfl, ck5_batchMarks_no_zero _ k5⟩,
    ⟨fun j hj => ⟨k6 j hj, by rw [k6 j hj]; rfl⟩,
     ck6_batchCaches_no_zero _ k6⟩⟩

/-- C4 witness: the amended theorem at the empty map and the concrete
initial states: no chunk-0 request is issued. -/
theorem C4_zero_range_categories_witness :
    ¬0 ∈ ck5_batchMarks
      (CK5_ScanInfoLayer emptyMap ck5StateNormal).lumpsNeeded :=
  (C4_zero_range_categories emptyMap emptyMap ck5StateNormal ck6StateObjs
    (by decide)
    (by intro j hj; rcases hj with rfl | rfl | rfl | rfl <;> decide)).1.2.2

/-! ## Claim C6 -/

/-- Membership in a CK5 chunk range is exactly the inclusive bounds of
the batch loop. -/
lemma mem_ck5_chunkRange (i j : Nat) :
    j ∈ ck5_chunkRange i ↔
      (ck5_lumpStarts.getD i 0 ≤ j ∧ j ≤ ck5_lumpEnds.getD i 0) := by
  unfold ck5_chunkRange
  rw [List.mem_range'_1]
  omega

/-- A chunk range never repeats a chunk id. -/
lemma ck5_chunkRange_nodup (i : Nat) : (ck5_chunkRange i).Nodup :=
  List.nodup_range' _ _

/-- The CK5 lump chunk ranges are pairwise disjoint. -/
lemma ck5_ranges_disjoint : ∀ i, i < 34 → ∀ k, k < 34 → i ≠ k →
    ck5_lumpEnds.getD i 0 < ck5_lumpStarts.getD k 0 ∨
    ck5_lumpEnds.getD k 0 < ck5_lumpStarts.getD i 0 := by decide

lemma count_flatMap_zero {l : List Nat} {F : Nat → List Nat} {j : Nat}
    (h : ∀ a ∈ l, ¬j ∈ F a) : ((l.flatMap F).count j) = 0 := by
  rw [List.count_eq_zero]
  intro hmem
  rw [List.mem_flatMap] at hmem
  obtain ⟨a, ha, hj⟩ := hmem
  exact h a ha hj

/-- When exactly one list in a disjoint family contains `j` (once), the
concatenation contains it exactly once. -/
lemma count_flatMap_single {F : Nat → List Nat} {a0 j : Nat} :
    ∀ {l : List Nat}, l.Nodup → a0 ∈ l → (F a0).count j = 1 →
      (∀ a ∈ l, a ≠ a0 → ¬j ∈ F a) → ((l.flatMap F).count j) = 1 := by
  intro l
  induction l with
  | nil => intro _ ha0; cases ha0
  | cons a l ih =>
    intro hnd ha0 hcount hothers
    rw [List.flatMap_cons, List.count_append]
    rcases List.mem_cons.mp ha0 with rfl | hmem
    · have hz : (l.flatMap F).count j = 0 := by
        apply count_flatMap_zero
        intro b hb
        refine hothers b (List.mem_cons_of_mem _ hb) ?_
        intro hba
        subst hba
        exact (List.nodup_cons.mp hnd).1 hb
      rw [hcount, hz]
    · have hne : a ≠ a0 := by
        intro hba
        subst hba
        exact (List.nodup_cons.mp hnd).1 hmem
      have hz : (F a).count j = 0 :=
        List.count_eq_zero.mpr (hothers a (List.mem_cons_self a l) hne)
      rw [hz, ih (List.nodup_cons.mp hnd).2 hmem hcount
        (fun b hb hneq => hothers b (List.mem_cons_of_mem _ hb) hneq)]

/-- Setting the same flag `n` times on the state equals setting it `n`
times on the flag array. -/
lemma iterate_setLump_lumpsNeeded (s : CK5ScanState) (i n : Nat) :
    ((fun t : CK5ScanState => t.setLump i)^[n] s).lumpsNeeded =
      (fun l : List Bool => l.set i true)^[n] s.lumpsNeeded := by
  induction n generalizing s with
  | zero => rfl
  | succ n ih =>
    rw [Function.iterate_succ_apply, Function.iterate_succ_apply, ih]
    rfl

lemma iterate_set_length (l : List Bool) (i : Nat) :
    ∀ n, ((fun l : List Bool => l.set i true)^[n] l).length = l.length := by
  intro n
  induction n generalizing l with
  | zero => rfl
  | succ n ih =>
    rw [Function.iterate_succ_apply, ih, List.length_set]

/-- After at least one `set i true`, flag `i` reads true. -/
lemma iterate_set_getD_self :
    ∀ (n : Nat) (l : List Bool), Nat.lt i l.length →
      ((fun l : List Bool => l.set i true)^[n + 1] l).getD i false = true := by
  intro n
  induction n with
  | zero =>
    intro l hi
    rw [Function.iterate_one]
    exact getD_set_self _ _ _ _ hi
  | succ n ih =>
    intro l hi
    rw [Function.iterate_succ_apply]
    exact ih (l.set i true) (by rw [List.length_set]; exact hi)

/-- Other flags are untouched by repeated `set i true`. -/
lemma iterate_set_getD_ne (i k : Nat) (h : i ≠ k) :
    ∀ (n : Nat) (l : List Bool),
      ((fun l : List Bool => l.set i true)^[n] l).getD k false =
        l.getD k false := by
  intro n
  induction n with
  | zero => intro l; rfl
  | succ n ih =>
    intro l
    rw [Function.iterate_succ_apply, ih, getD_set_ne _ _ _ _ _ h]

/-- C6: setting a lump category's needed flag any number of times (at
least once) during one CK5 info-layer scan results in each chunk id in
that category's inclusive range being requested exactly once by the
final batch pass — the per-category flag is a boolean, so marking is
idempotent, and the CK5 chunk ranges are pairwise disjoint, so no other
flagged category re-requests the chunk. -/
theorem C6_idempotent_marking (s : CK5ScanState)
    (hlen : s.lumpsNeeded.length = 34) (i : Nat) (hi : i < 34)
    (n : Nat) (hn : 1 ≤ n) (j : Nat)
    (hjs : ck5_lumpStarts.getD i 0 ≤ j) (hje : j ≤ ck5_lumpEnds.getD i 0) :
    (ck5_batchMarks
      (((fun t : CK5ScanState => t.setLump i)^[n] s).lumpsNeeded)).count j =
      1 := by
  rw [iterate_setLump_lumpsNeeded]
  have hflag :
      ((fun l : List Bool => l.set i true)^[n] s.lumpsNeeded).getD i false =
        true := by
    obtain ⟨m, rfl⟩ : ∃ m, n = m + 1 := ⟨n - 1, by omega⟩
    exact iterate_set_getD_self m s.lumpsNeeded (by rw [hlen]; exact hi)
  unfold ck5_batchMarks
  apply count_flatMap_single (List.nodup_range CK5_MAXLUMPS)
    (List.mem_range.mpr hi)
  · rw [hflag, if_pos rfl]
    exact List.count_eq_one_of_mem (ck5_chunkRange_nodup i)
      (mem_ck5_chunkRange i j |>.mpr ⟨hjs, hje⟩)
  · intro a ha hne
    have ha34 : a < 34 := List.mem_range.mp ha
    rcases hfa : ((fun l : List Bool => l.set i true)^[n] s.lumpsNeeded).getD
        a false with _ | _
    · simp
    · rw [if_pos rfl]
      intro hjmem
      have hbounds := (mem_ck5_chunkRange a j).mp hjmem
      have hdisj := ck5_ranges_disjoint a ha34 i hi hne
      omega

/-- C6 witness: flagging the candy category (index 2) twice from the
all-false state makes the batch pass request chunk `0xD2` exactly
once. -/
theorem C6_idempotent_marking_witness :
    (ck5_batchMarks
      (((fun t : CK5ScanState => t.setLump 2)^[2] ck5StateNormal).lumpsNeeded)).count
        0xD2 = 1 :=
  C6_idempotent_marking ck5StateNormal (by decide) 2 (by decide) 2 (by decide)
    0xD2 (by decide) (by decide)

/-! ## Claim C8 -/

/-- Unfolding equation for one bridge-row loop iteration. -/
lemma bridgeRow_succ (anim : Nat → Int) (y x : Int) (fuel : Nat)
    (fg : Int → Int → Nat) :
    bridgeRow anim y x (fuel + 1) fg =
      if anim (fg x y) = 0 then fg
      else bridgeRow anim y (x + 1) fuel
        (writeTile fg x y (animToggleTile anim (fg x y))) := rfl

lemma writeTile_eval_same (fg : Int → Int → Nat) (x y : Int) (v : Nat) :
    writeTile fg x y v x y = v := by
  unfold writeTile
  rw [if_pos ⟨rfl, rfl⟩]

lemma writeTile_eval_ne (fg : Int → Int → Nat) (x y : Int) (v : Nat)
    (a b : Int) (h : ¬(a = x ∧ b = y)) : writeTile fg x y v a b = fg a b := by
  unfold writeTile
  rw [if_neg h]

lemma writeTile_same (fg : Int → Int → Nat) (x y : Int) :
    writeTile fg x y (fg x y) = fg := by
  funext a b
  unfold writeTile
  split_ifs with h
  · rcases h with ⟨rfl, rfl⟩
    rfl
  · rfl

lemma writeTile_overwrite (fg : Int → Int → Nat) (x y : Int) (v w : Nat) :
    writeTile (writeTile fg x y v) x y w = writeTile fg x y w := by
  funext a b
  unfold writeTile
  split_ifs <;> rfl

lemma writeTile_comm (fg : Int → Int → Nat) (x y : Int) (v : Nat)
    (a b : Int) (w : Nat) (h : ¬(a = x ∧ b = y)) :
    writeTile (writeTile fg x y v) a b w =
      writeTile (writeTile fg a b w) x y v := by
  funext c d
  unfold writeTile
  split_ifs <;> first | rfl | (exact absurd ⟨by omega, by omega⟩ h)

/-- The bridge-row loop only writes tiles of row `y` at columns ≥ its
starting column. -/
lemma bridgeRow_frame (anim : Nat → Int) (y : Int) :
    ∀ (fuel : Nat) (x : Int) (fg : Int → Int → Nat) (a b : Int),
      b ≠ y ∨ a < x → bridgeRow anim y x fuel fg a b = fg a b := by
  intro fuel
  induction fuel with
  | zero => intro x fg a b _; rfl
  | succ fuel ih =>
    intro x fg a b h
    rw [bridgeRow_succ]
    split_ifs with h0
    · rfl
    · rw [ih (x + 1) _ a b (by rcases h with h | h; exact Or.inl h; exact Or.inr (by omega))]
      refine writeTile_eval_ne _ _ _ _ _ _ ?_
      rcases h with h | h
      · exact fun hc => h hc.2
      · exact fun hc => absurd hc.1 (by omega)

/-- The bridge-row loop's effect on row `y` depends only on the input's
row `y`. -/
lemma bridgeRow_row_congr (anim : Nat → Int) (y : Int) :
    ∀ (fuel : Nat) (x : Int) (fg fg' : Int → Int → Nat),
      (∀ u, fg u y = fg' u y) →
      ∀ a, bridgeRow anim y x fuel fg a y =
        bridgeRow anim y x fuel fg' a y := by
  intro fuel
  induction fuel with
  | zero => intro x fg fg' hag a; exact hag a
  | succ fuel ih =>
    intro x fg fg' hag a
    rw [bridgeRow_succ, bridgeRow_succ, hag x]
    split_ifs with h0
    · exact hag a
    · refine ih (x + 1) _ _ ?_ a
      intro u
      unfold writeTile
      split_ifs with hc
      · rfl
      · exact hag u

/-- A write strictly left of the loop's start commutes with the loop. -/
lemma bridgeRow_write_left (anim : Nat → Int) (y : Int) :
    ∀ (fuel : Nat) (x : Int) (fg : Int → Int → Nat) (a : Int) (v : Nat),
      a < x →
      bridgeRow anim y x fuel (writeTile fg a y v) =
        writeTile (bridgeRow anim y x fuel fg) a y v := by
  intro fuel
  induction fuel with
  | zero => intro x fg a v _; rfl
  | succ fuel ih =>
    intro x fg a v hax
    rw [bridgeRow_succ, bridgeRow_succ,
      writeTile_eval_ne fg a y v x y (fun hc => absurd hc.1 (by omega))]
    split_ifs with h0
    · rfl
    · rw [writeTile_comm fg a y v x y _ (fun hc => absurd hc.1 (by omega)),
        ih (x + 1) _ a v (by omega)]

/-- When two successive animation offsets cancel, toggling a (16-bit)
tile twice restores it. -/
lemma animToggle_invol (anim : Nat → Int)
    (H : ∀ t, anim t + anim (animToggleTile anim t) = 0)
    (t : Nat) (ht : t < 65536) :
    animToggleTile anim (animToggleTile anim t) = t := by
  have h1 := H t
  unfold animToggleTile uint16add at h1 ⊢
  rw [Int.toNat_of_nonneg (Int.emod_nonneg ((t : Int) + anim t)
    (by norm_num))]
  have hB : anim ((((t : Int) + anim t) % 65536).toNat) = -anim t := by
    omega
  rw [hB]
  have key : (((t : Int) + anim t) % 65536 + -anim t) % 65536 =
      ((t : Int) + anim t + -anim t) % 65536 := by
    conv_lhs => rw [Int.add_emod]
    conv_rhs => rw [Int.add_emod]
    rw [Int.emod_emod_of_dvd _ dvd_rfl]
  rw [key]
  have hsimp : (t : Int) + anim t + -anim t = (t : Int) := by ring
  rw [hsimp, Int.emod_eq_of_lt (by positivity) (by exact_mod_cast ht)]
  exact Int.toNat_natCast t

/-- Running one bridge row twice restores the plane, provided row `y`
holds 16-bit tile values and successive animation offsets cancel. -/
lemma bridgeRow_invol (anim : Nat → Int) (y : Int)
    (H : ∀ t, anim t + anim (animToggleTile anim t) = 0) :
    ∀ (fuel : Nat) (x : Int) (fg : Int → Int → Nat),
      (∀ u, fg u y < 65536) →
      bridgeRow anim y x fuel (bridgeRow anim y x fuel fg) = fg := by
  intro fuel
  induction fuel with
  | zero => intro x fg _; rfl
  | succ fuel ih =>
    intro x fg hred
    by_cases h0 : anim (fg x y) = 0
    · have h1 : bridgeRow anim y x (fuel + 1) fg = fg := by
        rw [bridgeRow_succ, if_pos h0]
      rw [h1, h1]
    · have h1 : bridgeRow anim y x (fuel + 1) fg =
          bridgeRow anim y (x + 1) fuel
            (writeTile fg x y (animToggleTile anim (fg x y))) := by
        rw [bridgeRow_succ, if_neg h0]
      have hP1x : bridgeRow anim y (x + 1) fuel
          (writeTile fg x y (animToggleTile anim (fg x y))) x y =
          animToggleTile anim (fg x y) := by
        rw [bridgeRow_frame anim y fuel (x + 1) _ x y (Or.inr (by omega))]
        exact writeTile_eval_same _ _ _ _
      have hanim2 : anim (animToggleTile anim (fg x y)) = -anim (fg x y) := by
        have := H (fg x y)
        omega
      rw [h1, bridgeRow_succ, hP1x, if_neg (by rw [hanim2]; omega),
        animToggle_invol anim H (fg x y) (hred x),
        ← bridgeRow_write_left anim y fuel (x + 1) _ x (fg x y) (by omega),
        writeTile_overwrite, writeTile_same]
      exact ih (x + 1) fg hred

/-- C8: for a switch whose destination tile's misc flag is "bridge",
applying the bridge toggle twice restores the original foreground tile
pattern, assuming every tile's two successive animation offsets cancel
(the claim's hypothesis) and the plane holds 16-bit tile values. -/
theorem C8_bridge_round_trip (anim : Nat → Int)
    (H : ∀ t, anim t + anim (animToggleTile anim t) = 0)
    (mapW destX destY : Int) (fg : Int → Int → Nat)
    (hred : ∀ a b, fg a b < 65536) :
    CK6_ToggleBridge anim mapW destX destY
      (CK6_ToggleBridge anim mapW destX destY fg) = fg := by
  unfold CK6_ToggleBridge
  dsimp only
  funext a b
  by_cases hb0 : b = destY
  · rw [hb0]
    rw [bridgeRow_frame anim (destY + 1) _ (destX - 1) _ a destY
      (Or.inl (by omega))]
    rw [bridgeRow_row_congr anim destY _ destX _
      (bridgeRow anim destY destX (mapW - destX).toNat fg)
      (fun u => bridgeRow_frame anim (destY + 1) _ (destX - 1) _ u destY
        (Or.inl (by omega)))
      a]
    rw [bridgeRow_invol anim destY H _ destX fg (fun u => hred u destY)]
  · by_cases hb1 : b = destY + 1
    · subst hb1
      rw [bridgeRow_row_congr anim (destY + 1) _ (destX - 1) _
        (bridgeRow anim (destY + 1) (destX - 1) (mapW - (destX - 1)).toNat
          (bridgeRow anim destY destX (mapW - destX).toNat fg))
        (fun u => bridgeRow_frame anim destY _ destX _ u (destY + 1)
          (Or.inl (by omega)))
        a]
      rw [bridgeRow_invol anim (destY + 1) H _ (destX - 1)
        (bridgeRow anim destY destX (mapW - destX).toNat fg)
        (fun u => by
          rw [bridgeRow_frame anim destY _ destX _ u (destY + 1)
            (Or.inl (by omega))]
          exact hred u (destY + 1))]
      rw [bridgeRow_frame anim destY _ destX _ a (destY + 1)
        (Or.inl (by omega))]
    · rw [bridgeRow_frame anim (destY + 1) _ (destX - 1) _ a b (Or.inl hb1),
        bridgeRow_frame anim destY _ destX _ a b (Or.inl hb0),
        bridgeRow_frame anim (destY + 1) _ (destX - 1) _ a b (Or.inl hb1),
        bridgeRow_frame anim destY _ destX _ a b (Or.inl hb0)]

/-- A concrete animation-offset table pairing tile 100 with tile 101. -/
def animEx (t : Nat) : Int :=
  if t % 65536 = 100 then 1 else if t % 65536 = 101 then -1 else 0

/-- `animEx` satisfies the cancelling-offsets hypothesis. -/
lemma animEx_cancels :
    ∀ t, animEx t + animEx (animToggleTile animEx t) = 0 := by
  intro t
  simp only [animEx, animToggleTile, uint16add]
  by_cases h1 : t % 65536 = 100
  · have e1 : (if t % 65536 = 100 then (1 : Int)
        else if t % 65536 = 101 then -1 else 0) = 1 := if_pos h1
    simp only [e1]
    rw [if_neg (by omega), if_pos (by omega)]
    norm_num
  · by_cases h2 : t % 65536 = 101
    · have e2 : (if t % 65536 = 100 then (1 : Int)
          else if t % 65536 = 101 then -1 else 0) = -1 := by
        rw [if_neg h1, if_pos h2]
      simp only [e2]
      rw [if_pos (by omega)]
      norm_num
    · have e3 : (if t % 65536 = 100 then (1 : Int)
          else if t % 65536 = 101 then -1 else 0) = 0 := by
        rw [if_neg h1, if_neg h2]
      simp only [e3]
      rw [if_neg (by omega), if_neg (by omega)]
      norm_num

/-- A concrete foreground plane: a bridge of `100` tiles. -/
def fgBridge : Int → Int → Nat := fun _ _ => 100

/-- C8 witness: toggling the all-`100` bridge twice restores it. -/
theorem C8_bridge_round_trip_witness :
    CK6_ToggleBridge animEx 5 1 0
      (CK6_ToggleBridge animEx 5 1 0 fgBridge) = fgBridge :=
  C8_bridge_round_trip animEx animEx_cancels 5 1 0 fgBridge
    (fun a b => by unfold fgBridge; omega)

end Omnispeak
